import Mathlib

/-!
Verification development for the hotel-management reservation engine.

Shallow embedding of `reservations/models.py` (the `Reservation` model with its
`clean`, `save`, `_update_room_status`, `_create_income_record`, `_process_refund`
and `delete` methods), of the admin-form status state machine in
`reservations/admin.py`, and of the delete/edit guards in `reservations/admin.py`,
`rooms/admin.py` and `customers/admin.py`.

Modelling conventions:
  * dates are day numbers (`Int`); "today" is an explicit parameter;
  * money is `Int` (room prices are positive integers in the source, and
    `paid_amount = days * price` stays integral);
  * a Django model instance is a record; fields that the source code guards with
    truthiness checks (`room_id`, the two dates, the primary key) are `Option`s;
  * the database is a record of lists; `Income`/`Expense` rows are appended in
    creation order (so `.first()` on a filtered queryset is the first list match);
  * `room.save()` calls are counted in `DB.roomWrites` so that "write only when
    the status changed" is observable;
  * raising `ValidationError` is modelled by returning the error value; the
    in-memory mutations a Python method performed before raising are kept in the
    returned object, matching Python semantics.
-/

/-- Reservation status (`Reservation.STATUS` in `reservations/models.py`). -/
inductive ResStatus
  | Booked
  | CheckedIn
  | CheckedOut
  | Refunded
deriving DecidableEq, Repr

/-- Room status (`Room.ROOM_STATUS` in `rooms/models.py`). -/
inductive RoomStatus
  | Available
  | Booked
  | Occupied
  | Maintenance
deriving DecidableEq, Repr

/-- A row of the `rooms_room` table (fields used by the reservation engine). -/
structure Room where
  id : Nat
  room_number : String
  price : Int          -- PositiveIntegerField with MinValueValidator(1)
  capacity : Int       -- IntegerField
  status : RoomStatus
deriving DecidableEq, Repr

/-- A row of the `customers_customer` table (fields used by the engine). -/
structure Customer where
  id : Nat
  name : String
deriving DecidableEq, Repr

/-- A row of the `finance_income` table. -/
structure Income where
  date : Int
  amount : Int
  source : String
  description : String
deriving DecidableEq, Repr

/-- A row of the `finance_expense` table. -/
structure Expense where
  date : Int
  amount : Int
  category : String
  description : String
deriving DecidableEq, Repr

/-- A `Reservation` instance (`reservations/models.py`).  `pk = none` models an
unsaved instance; `roomId`/dates are `Option`s because `clean` guards them with
truthiness checks. -/
structure Reservation where
  pk : Option Nat
  customerId : Nat
  roomId : Option Nat
  check_in_date : Option Int
  check_out_date : Option Int
  number_of_guests : Nat
  status : ResStatus
  paid_amount : Int
  refund_amount : Int
  income_recorded : Bool
  refund_recorded : Bool
deriving DecidableEq, Repr

/-- The persistent store: one list per table, plus a counter of `room.save()`
calls (to observe redundant-write avoidance). -/
structure DB where
  reservations : List Reservation
  rooms : List Room
  customers : List Customer
  incomes : List Income
  expenses : List Expense
  roomWrites : Nat
deriving DecidableEq, Repr

/-- `status in ['Booked', 'CheckedIn']` — the "active" statuses used by every
conflict / guard / room-status query in the source. -/
def isActive (s : ResStatus) : Bool :=
  s == ResStatus.Booked || s == ResStatus.CheckedIn

/-- `Room.objects.get(pk=rid)`: first room with the given id. -/
def DB.findRoom (db : DB) (rid : Nat) : Option Room :=
  db.rooms.find? (fun rm => rm.id == rid)

/-- `self.customer.name` (FK dereference); empty string if the row is absent
(unreachable under FK integrity). -/
def customerNameOf (db : DB) (cid : Nat) : String :=
  match db.customers.find? (fun c => c.id == cid) with
  | some c => c.name
  | none => ""

/-- `self.room.room_number` (FK dereference through the optional `room_id`). -/
def roomNumberOf (db : DB) (rid : Option Nat) : String :=
  match rid with
  | some r =>
    match db.findRoom r with
    | some rm => rm.room_number
    | none => ""
  | none => ""

/-- Substring test (Django `description__contains`). -/
def strContains (s pat : String) : Bool :=
  s.data.tails.any (fun t => pat.data.isPrefixOf t)

/-- The validation errors `Reservation.full_clean` can raise.  The payloads keep
the data interpolated into the source's error messages. -/
inductive CleanError
  | dateOrder                      -- '入住日期必须早于离店日期'
  | capacity (guests : Nat) (cap : Int)  -- '入住人数(..)超过房间容量(..)'
  | conflict (roomNumber : String) -- '房间{n}该时段已被预订'
  | nullRoom                       -- clean_fields: room FK may not be null
  | nullDate                       -- clean_fields: a date may not be null
  | guestBounds                    -- MinValueValidator(1)/MaxValueValidator(100)
  | negativeAmount                 -- MinValueValidator(Decimal('0.00'))
deriving DecidableEq, Repr

/-- `reservations/models.py` lines 226-270: the conflict queryset is nonempty.
Filters: same room, active status, `check_in_date < cout` and
`check_out_date > cin`; when the instance has a pk, that pk is excluded. -/
def hasConflict (db : DB) (rid : Nat) (cin cout : Int) (excludePk : Option Nat) : Bool :=
  db.reservations.any (fun r =>
    r.roomId == some rid &&
    isActive r.status &&
    (match r.check_in_date, r.check_out_date with
     | some a, some b => decide (a < cout) && decide (b > cin)
     | _, _ => false) &&
    (match excludePk with
     | some p => !(r.pk == some p)
     | none => true))

/-- `Reservation.clean` lines 195-199: the value written into `paid_amount`.
It changes only when both dates are set, `check_in < check_out` and the room is
set (a missing room row, impossible under FK integrity, leaves it unchanged). -/
def cleanedPaid (self : Reservation) (db : DB) : Int :=
  match self.check_in_date, self.check_out_date with
  | some cin, some cout =>
    if cin ≥ cout then self.paid_amount
    else
      match self.roomId with
      | some rid =>
        match db.findRoom rid with
        | some room => (cout - cin) * room.price
        | none => self.paid_amount
      | none => self.paid_amount
  | _, _ => self.paid_amount

/-- `Reservation.clean` lines 202-208: the guest-capacity check (skipped when
the room is unset or the guest count is falsy, i.e. zero). -/
def capacityErr (self : Reservation) (db : DB) : Option CleanError :=
  match self.roomId with
  | some rid =>
    if self.number_of_guests ≠ 0 then
      match db.findRoom rid with
      | some room =>
        if (self.number_of_guests : Int) > room.capacity then
          some (CleanError.capacity self.number_of_guests room.capacity)
        else none
      | none => none
    else none
  | none => none

/-- `Reservation.clean` lines 214-278: the conflict check, run when room and
both dates are set. -/
def conflictErr (self : Reservation) (db : DB) : Option CleanError :=
  match self.roomId, self.check_in_date, self.check_out_date with
  | some rid, some cin, some cout =>
    if hasConflict db rid cin cout self.pk then
      some (CleanError.conflict (roomNumberOf db (some rid)))
    else none
  | _, _, _ => none

/-- The part of `clean` after the date block: capacity check, then (only when
the capacity check did not raise) the conflict check. -/
def cleanTail (self : Reservation) (db : DB) : Option CleanError :=
  match capacityErr self db with
  | some e => some e
  | none => conflictErr self db

/-- The error `Reservation.clean` raises, if any: the date-order error aborts
before the amount recomputation; otherwise capacity, then conflict. -/
def cleanError (self : Reservation) (db : DB) : Option CleanError :=
  match self.check_in_date, self.check_out_date with
  | some cin, some cout =>
    if cin ≥ cout then some CleanError.dateOrder
    else cleanTail { self with paid_amount := cleanedPaid self db } db
  | _, _ => cleanTail self db

/-- `Reservation.clean`: returns the (possibly `paid_amount`-mutated) instance
together with the raised error, if any.  Python mutates `self.paid_amount` in
place before a later check can raise, so the mutation is kept even when an
error is returned. -/
def Reservation.clean (self : Reservation) (db : DB) : Reservation × Option CleanError :=
  ({ self with paid_amount := cleanedPaid self db }, cleanError self db)

/-- The field-level validators run by `full_clean` before `clean`: non-null
FK/date fields, `number_of_guests` in 1..100, non-negative amounts. -/
def clean_fields (self : Reservation) : List CleanError :=
  (if self.roomId = none then [CleanError.nullRoom] else []) ++
  (if self.check_in_date = none then [CleanError.nullDate] else []) ++
  (if self.check_out_date = none then [CleanError.nullDate] else []) ++
  (if self.number_of_guests < 1 ∨ 100 < self.number_of_guests then [CleanError.guestBounds] else []) ++
  (if self.paid_amount < 0 then [CleanError.negativeAmount] else []) ++
  (if self.refund_amount < 0 then [CleanError.negativeAmount] else [])

/-- `self.full_clean()`: Django runs `clean_fields` and then `clean` (the model
`clean` runs even when a field validator failed) and raises the merged error
list; the instance mutation performed by `clean` is kept either way. -/
def Reservation.full_clean (self : Reservation) (db : DB) : Reservation × List CleanError :=
  ((self.clean db).1, clean_fields self ++ (cleanError self db).toList)

/-- `Reservation.save` lines 294-300: a reservation past its check-out date that
is still `CheckedIn` is switched to `CheckedOut` (this runs after `full_clean`
in the source). -/
def autoCheckout (self : Reservation) (today : Int) : Reservation :=
  match self.check_out_date with
  | some co =>
    if co < today ∧ self.status = ResStatus.CheckedIn then
      { self with status := ResStatus.CheckedOut }
    else self
  | none => self

/-- `Reservation.save` lines 303-313: the status currently stored for this pk
(`None` for a new instance or a vanished row). -/
def lookupStatus (db : DB) (pk : Option Nat) : Option ResStatus :=
  match pk with
  | some p => (db.reservations.find? (fun r => r.pk == some p)).map (fun r => r.status)
  | none => none

/-- Auto-increment primary key for an INSERT. -/
def nextPk (db : DB) : Nat :=
  db.reservations.foldr (fun r acc => max (r.pk.getD 0) acc) 0 + 1

/-- `super().save()`: INSERT (assigning a fresh pk) when the instance has no pk,
otherwise UPDATE the row with that pk (INSERT if it vanished).  Returns the
store and the in-memory instance (with its pk populated on insert). -/
def superSave (db : DB) (self : Reservation) : DB × Reservation :=
  match self.pk with
  | none =>
    let obj := { self with pk := some (nextPk db) }
    ({ db with reservations := db.reservations ++ [obj] }, obj)
  | some p =>
    if db.reservations.any (fun r => r.pk == some p) then
      ({ db with reservations :=
          db.reservations.map (fun r => if r.pk == some p then self else r) }, self)
    else
      ({ db with reservations := db.reservations ++ [self] }, self)

/-- `_update_room_status` lines 362-396 (also inlined in `delete` lines
533-565): the room status derived from the active reservations of a room, given
the room's current status (`Maintenance` is never auto-overwritten). -/
def computeRoomStatus (resvs : List Reservation) (rid : Nat) (current : RoomStatus) : RoomStatus :=
  let active := resvs.filter (fun r => r.roomId == some rid && isActive r.status)
  if active.any (fun r => r.status == ResStatus.CheckedIn) then RoomStatus.Occupied
  else if active.any (fun r => r.status == ResStatus.Booked) then RoomStatus.Booked
  else if current ≠ RoomStatus.Maintenance then RoomStatus.Available
  else RoomStatus.Maintenance

/-- `_update_room_status` lines 398-404: write the derived status back to the
room row only when it differs from the current one (each write bumps
`roomWrites`). -/
def updateRoomStatus (db : DB) (rid : Option Nat) : DB :=
  match rid with
  | none => db
  | some r =>
    match db.findRoom r with
    | none => db
    | some room =>
      let ns := computeRoomStatus db.reservations r room.status
      if room.status ≠ ns then
        { db with
          rooms := db.rooms.map (fun rm => if rm.id == r then { rm with status := ns } else rm),
          roomWrites := db.roomWrites + 1 }
      else db

/-- The description of an income record (`_create_income_record` lines 418-424):
`'预订号:{id} | 客户:{name} | 房间:{number} | {in} 至 {out} (共{days}天) | 人数:{guests}'`. -/
def incomeDescription (i : Nat) (name num : String) (cin cout : Int) (guests : Nat) : String :=
  "预订号:" ++ toString i ++ " | 客户:" ++ name ++ " | 房间:" ++ num ++ " | " ++
    toString cin ++ " 至 " ++ toString cout ++ " (共" ++ toString (cout - cin) ++ "天) | 人数:" ++
    toString guests

/-- The income description of a reservation, with the FK fields dereferenced. -/
def incomeDescFor (db : DB) (self : Reservation) : String :=
  incomeDescription (self.pk.getD 0) (customerNameOf db self.customerId)
    (roomNumberOf db self.roomId) (self.check_in_date.getD 0) (self.check_out_date.getD 0)
    self.number_of_guests

/-- The substring `'预订号:{id}'` used to correlate ledger rows to a reservation. -/
def idPat (self : Reservation) : String :=
  "预订号:" ++ toString (self.pk.getD 0)

/-- `_create_income_record` lines 406-435: append one income row (source
`"Room"`, dated today, amount `paid_amount`) and set the stored row's
`income_recorded` flag through a direct `update()` that bypasses `save` (the
in-memory instance is NOT updated). -/
def createIncomeRecord (db : DB) (self : Reservation) (today : Int) : DB :=
  let inc : Income :=
    { date := today, amount := self.paid_amount, source := "Room",
      description := incomeDescFor db self }
  { db with
    incomes := db.incomes ++ [inc],
    reservations := db.reservations.map (fun r =>
      if r.pk == self.pk then { r with income_recorded := true } else r) }

/-- The description of a refund expense (`_process_refund` lines 458-465). -/
def refundDescFor (db : DB) (self : Reservation) : String :=
  "退款-预订号:" ++ toString (self.pk.getD 0) ++ " | 客户:" ++
    customerNameOf db self.customerId ++ " | 房间:" ++ roomNumberOf db self.roomId ++ " | " ++
    toString (self.check_in_date.getD 0) ++ " 至 " ++ toString (self.check_out_date.getD 0) ++
    "(" ++ toString (self.check_out_date.getD 0 - self.check_in_date.getD 0) ++ "天) | 退款:￥" ++
    toString self.refund_amount

/-- The annotation appended to the matching income row on refund
(`_process_refund` line 486). -/
def refundSuffix (amount : Int) : String :=
  " | [已退订-退款￥" ++ toString amount ++ "]"

/-- Append `suffix` to the description of the first income row matching
`Income.objects.filter(source='Room', description__contains=pat).first()`;
no-op when there is no match. -/
def annotateFirst (l : List Income) (pat suffix : String) : List Income :=
  match l with
  | [] => []
  | i :: rest =>
    if i.source == "Room" && strContains i.description pat then
      { i with description := i.description ++ suffix } :: rest
    else
      i :: annotateFirst rest pat suffix

/-- `_process_refund` lines 437-494: no-op when already refunded or nothing was
paid; otherwise set `refund_amount := paid_amount` on the in-memory instance,
append one `"Other"` expense dated today, annotate the matching income row when
the instance's `income_recorded` flag is set, and set the stored row's refund
fields through a direct `update()`. -/
def processRefund (db : DB) (self : Reservation) (today : Int) : DB × Reservation :=
  if self.refund_recorded = true ∨ self.paid_amount ≤ 0 then (db, self)
  else
    let self1 := { self with refund_amount := self.paid_amount }
    let exp : Expense :=
      { date := today, amount := self1.refund_amount, category := "Other",
        description := refundDescFor db self1 }
    let db1 := { db with expenses := db.expenses ++ [exp] }
    let db2 :=
      if self1.income_recorded then
        { db1 with incomes := annotateFirst db1.incomes (idPat self1) (refundSuffix self1.refund_amount) }
      else db1
    let db3 := { db2 with reservations := db2.reservations.map (fun r =>
      if r.pk == self1.pk then
        { r with refund_recorded := true, refund_amount := self1.refund_amount }
      else r) }
    (db3, self1)

/-- The state after a `save` call: the store, the in-memory instance (Python
mutates it even when validation fails), and the raised errors (empty = success). -/
structure SaveResult where
  db : DB
  obj : Reservation
  errors : List CleanError
deriving Repr

/-- `Reservation.save` lines 294-329, after a successful `full_clean`:
auto-checkout, read the old status, persist, sync the room status, create the
income record when `paid_amount > 0` and `income_recorded` is unset, process the
refund on a non-Refunded → Refunded update. -/
def savePersist (self1 : Reservation) (db : DB) (today : Int) : SaveResult :=
  let self2 := autoCheckout self1 today
  let isNew : Bool := self2.pk == none
  let oldStatus := lookupStatus db self2.pk
  let pr := superSave db self2
  let db2 := updateRoomStatus pr.1 pr.2.roomId
  let db3 :=
    if pr.2.paid_amount > 0 ∧ pr.2.income_recorded = false then
      createIncomeRecord db2 pr.2 today
    else db2
  let pr2 :=
    if isNew = false ∧ oldStatus ≠ some ResStatus.Refunded ∧ pr.2.status = ResStatus.Refunded then
      processRefund db3 pr.2 today
    else (db3, pr.2)
  { db := pr2.1, obj := pr2.2, errors := [] }

/-- `Reservation.save` lines 280-329: `full_clean` first (raising aborts the
save with the store untouched, keeping the in-memory mutations), then the
persist pipeline. -/
def Reservation.save (self : Reservation) (db : DB) (today : Int) : SaveResult :=
  let fc := self.full_clean db
  if fc.2 = [] then savePersist fc.1 db today
  else { db := db, obj := fc.1, errors := fc.2 }

/-- `Reservation.delete` lines 496-571: capture the room reference, process the
refund only for an unrefunded paid `Refunded` reservation, annotate the matching
income row with the deleted marker, remove the row, and re-derive the captured
room's status with the same rule (and redundant-write avoidance) as
`_update_room_status`. -/
def Reservation.delete (self : Reservation) (db : DB) (today : Int) : DB :=
  let rid := self.roomId
  let pr :=
    if self.paid_amount > 0 ∧ self.refund_recorded = false ∧ self.status = ResStatus.Refunded then
      processRefund db self today
    else (db, self)
  let db2 :=
    if pr.2.income_recorded then
      { pr.1 with incomes := annotateFirst pr.1.incomes (idPat pr.2) " | [预订已删除]" }
    else pr.1
  let db3 := { db2 with reservations := db2.reservations.filter (fun r => !(r.pk == pr.2.pk)) }
  updateRoomStatus db3 rid

/-- Errors the admin reservation form can raise for the status field. -/
inductive FormError
  | invalidChoice   -- submitted value not among the field's configured choices
  | checkedInRefund -- '已入住订单不支持退款，请先办理离店。'
deriving DecidableEq, Repr

/-- `ReservationAdminForm.__init__` lines 98-205: the choices configured for the
status dropdown, keyed by the instance's current status (`none` = new). -/
def statusChoices (original : Option ResStatus) : List ResStatus :=
  match original with
  | none => [ResStatus.Booked, ResStatus.CheckedIn]
  | some ResStatus.CheckedOut => [ResStatus.CheckedOut]
  | some ResStatus.Refunded => [ResStatus.Refunded]
  | some ResStatus.CheckedIn => [ResStatus.CheckedIn, ResStatus.CheckedOut]
  | some ResStatus.Booked => [ResStatus.Booked, ResStatus.CheckedIn, ResStatus.Refunded]

/-- `ReservationAdminForm.__init__`: whether the status field is disabled (a
disabled field keeps the instance's value and ignores the submitted one). -/
def statusDisabled (original : Option ResStatus) : Bool :=
  match original with
  | some ResStatus.CheckedOut => true
  | some ResStatus.Refunded => true
  | _ => false

/-- The outcome of the admin form's status-field validation. -/
structure FormOutcome where
  status : Option ResStatus  -- value in cleaned_data ('none' when field-invalid)
  errors : List FormError
deriving DecidableEq, Repr

/-- The status handling of `ReservationAdminForm` (`__init__` choice/disabled
configuration plus `clean` lines 235-258): a disabled field keeps the original
value; an enabled field rejects a submission outside its choices (excluding the
value from cleaned_data); the form's `clean` then rejects `CheckedIn → Refunded`
with the business-rule error. -/
def adminFormStatusClean (original : Option ResStatus) (submitted : ResStatus) : FormOutcome :=
  let d := statusDisabled original
  let choices := statusChoices original
  let fieldVal : Option ResStatus :=
    if d then original
    else if submitted ∈ choices then some submitted else none
  let fieldErrs : List FormError :=
    if d = false ∧ submitted ∉ choices then [FormError.invalidChoice] else []
  let ruleErrs : List FormError :=
    if original = some ResStatus.CheckedIn ∧ fieldVal = some ResStatus.Refunded then
      [FormError.checkedInRefund]
    else []
  { status := fieldVal, errors := fieldErrs ++ ruleErrs }

/-- The status an edit through the admin form leaves on the reservation: the
cleaned value when the form validated, otherwise the original status (an
invalid form never reaches `save`). -/
def adminFormResultStatus (original : ResStatus) (submitted : ResStatus) : ResStatus :=
  let o := adminFormStatusClean (some original) submitted
  if o.errors = [] then o.status.getD original else original

/-- `ReservationAdmin.make_checkin` lines 626-671: the批量 action touches only
`Booked` reservations, setting them to `CheckedIn`. -/
def makeCheckinStep (r : Reservation) : Option ResStatus :=
  if r.status = ResStatus.Booked then some ResStatus.CheckedIn else none

/-- `ReservationAdmin.make_checkout` lines 673-696: only `CheckedIn`
reservations, set to `CheckedOut`. -/
def makeCheckoutStep (r : Reservation) : Option ResStatus :=
  if r.status = ResStatus.CheckedIn then some ResStatus.CheckedOut else none

/-- `ReservationAdmin.cancel_reservations` lines 698-753: aborts when any
selected reservation is `CheckedIn`; otherwise only `Booked` reservations are
set to `Refunded`. -/
def cancelStep (r : Reservation) : Option ResStatus :=
  if r.status = ResStatus.Booked then some ResStatus.Refunded else none

/-- `ReservationAdmin.delete_model` lines 842-884: refuse to delete an active
(`Booked`/`CheckedIn`) reservation, leaving the store untouched; otherwise run
the model's `delete`. -/
def reservationDeleteModel (db : DB) (obj : Reservation) (today : Int) : DB :=
  if isActive obj.status then db else obj.delete db today

/-- `RoomAdmin.delete_model` (`rooms/admin.py` lines 194-225): refuse when the
room has an active reservation; otherwise delete the room (the FK cascade also
removes its reservations). -/
def roomDeleteModel (db : DB) (obj : Room) : DB :=
  if db.reservations.any (fun r => r.roomId == some obj.id && isActive r.status) then db
  else
    { db with
      rooms := db.rooms.filter (fun rm => !(rm.id == obj.id)),
      reservations := db.reservations.filter (fun r => !(r.roomId == some obj.id)) }

/-- `CustomerAdmin.delete_model` (`customers/admin.py` lines 186-217): refuse
when the customer has an active reservation; otherwise delete the customer (the
FK cascade also removes their reservations). -/
def customerDeleteModel (db : DB) (obj : Customer) : DB :=
  if db.reservations.any (fun r => r.customerId == obj.id && isActive r.status) then db
  else
    { db with
      customers := db.customers.filter (fun c => !(c.id == obj.id)),
      reservations := db.reservations.filter (fun r => !(r.customerId == obj.id)) }

/-- `RoomAdminForm.clean` (`rooms/admin.py` lines 45-84): editing an existing
room is rejected whenever it has an active (`Booked`/`CheckedIn`) reservation. -/
def roomEditAllowed (db : DB) (obj : Room) : Bool :=
  !(db.reservations.any (fun r => r.roomId == some obj.id && isActive r.status))

/-- `CustomerAdminForm.clean` (`customers/admin.py` lines 44-83): editing an
existing customer is rejected only when they have a `CheckedIn` reservation. -/
def customerEditAllowed (db : DB) (obj : Customer) : Bool :=
  !(db.reservations.any (fun r => r.customerId == obj.id && r.status == ResStatus.CheckedIn))

/-! ### Structural lemmas about the embedding -/

theorem any_ext {α : Type} (l : List α) (p q : α → Bool) (h : ∀ a, p a = q a) :
    l.any p = l.any q := by
  induction l with
  | nil => rfl
  | cons a t ih => simp [List.any_cons, h a, ih]

theorem any_filter {α : Type} (l : List α) (p q : α → Bool) :
    (l.filter p).any q = l.any (fun a => p a && q a) := by
  induction l with
  | nil => rfl
  | cons a t ih =>
    by_cases h : p a = true
    · simp [List.filter_cons, h, ih]
    · simp only [Bool.not_eq_true] at h
      simp [List.filter_cons, h, ih]

theorem find?_map_pres (l : List Room) (f : Room → Room) (h : ∀ rm, (f rm).id = rm.id)
    (x : Nat) :
    (l.map f).find? (fun rm => rm.id == x) = (l.find? (fun rm => rm.id == x)).map f := by
  induction l with
  | nil => rfl
  | cons a t ih =>
    simp only [List.map_cons, List.find?]
    rw [h a]
    cases hc : (a.id == x) <;> simp [hc, ih]

theorem annotateFirst_length (l : List Income) (pat suffix : String) :
    (annotateFirst l pat suffix).length = l.length := by
  induction l with
  | nil => rfl
  | cons a t ih =>
    by_cases h : (a.source == "Room" && strContains a.description pat) = true
    · simp [annotateFirst, h]
    · simp only [Bool.not_eq_true] at h
      simp [annotateFirst, h, ih]

theorem clean_fst (self : Reservation) (db : DB) :
    (self.clean db).1 = { self with paid_amount := cleanedPaid self db } := rfl

theorem full_clean_fst (self : Reservation) (db : DB) :
    (self.full_clean db).1 = { self with paid_amount := cleanedPaid self db } := rfl

theorem full_clean_snd (self : Reservation) (db : DB) :
    (self.full_clean db).2 = clean_fields self ++ (cleanError self db).toList := rfl

/-- A successful `save` took the persist path on the cleaned instance. -/
theorem save_success (self : Reservation) (db : DB) (today : Int)
    (h : (self.save db today).errors = []) :
    (self.full_clean db).2 = [] ∧
    self.save db today = savePersist (self.full_clean db).1 db today := by
  by_cases hc : (self.full_clean db).2 = []
  · refine ⟨hc, ?_⟩
    simp [Reservation.save, hc]
  · exfalso
    apply hc
    simpa [Reservation.save, hc] using h


/-- A failed `save` leaves the store untouched and returns the cleaned
instance. -/
theorem save_failure (self : Reservation) (db : DB) (today : Int)
    (h : (self.save db today).errors ≠ []) :
    (self.save db today).db = db ∧
    (self.save db today).obj = { self with paid_amount := cleanedPaid self db } := by
  by_cases hc : (self.full_clean db).2 = []
  · exfalso
    apply h
    show (Reservation.save self db today).errors = []
    simp only [Reservation.save, hc, if_pos]
    rfl
  · constructor <;> simp [Reservation.save, hc, full_clean_fst]

theorem full_clean_nil (self : Reservation) (db : DB)
    (h : (self.full_clean db).2 = []) :
    clean_fields self = [] ∧ cleanError self db = none := by
  rw [full_clean_snd] at h
  rcases List.append_eq_nil.mp h with ⟨ha, hb⟩
  refine ⟨ha, ?_⟩
  cases hx : cleanError self db with
  | none => rfl
  | some e => rw [hx] at hb; simp [Option.toList] at hb

theorem clean_fields_nil (self : Reservation) (h : clean_fields self = []) :
    self.roomId ≠ none ∧ self.check_in_date ≠ none ∧ self.check_out_date ≠ none ∧
    1 ≤ self.number_of_guests ∧ self.number_of_guests ≤ 100 ∧
    0 ≤ self.paid_amount ∧ 0 ≤ self.refund_amount := by
  unfold clean_fields at h
  by_cases h1 : self.roomId = none <;>
    by_cases h2 : self.check_in_date = none <;>
      by_cases h3 : self.check_out_date = none <;>
        by_cases h4 : self.number_of_guests < 1 ∨ 100 < self.number_of_guests <;>
          by_cases h5 : self.paid_amount < 0 <;>
            by_cases h6 : self.refund_amount < 0 <;>
              simp only [h1, h2, h3, h4, h5, h6, if_true, if_false,
                List.append_eq_nil, ne_eq, not_false_iff, List.cons_ne_nil,
                and_true, and_false, false_and, true_and] at h ⊢ <;>
                first
                | omega
                | (refine ⟨h1, h2, h3, ?_, ?_, ?_⟩ <;> omega)
                | simp_all

/-- When both dates are set, a passing `clean` means `check_in < check_out`. -/
theorem cleanError_dates (self : Reservation) (db : DB) (cin cout : Int)
    (hcin : self.check_in_date = some cin) (hcout : self.check_out_date = some cout)
    (h : cleanError self db = none) : cin < cout := by
  unfold cleanError at h
  rw [hcin, hcout] at h
  by_cases hlt : cin ≥ cout
  · simp [hlt] at h
  · omega

/-- `autoCheckout` either leaves the instance alone or just flips the status to
`CheckedOut`. -/
theorem autoCheckout_cases (self : Reservation) (t : Int) :
    autoCheckout self t = self ∨
    autoCheckout self t = { self with status := ResStatus.CheckedOut } := by
  unfold autoCheckout
  cases self.check_out_date with
  | none => exact Or.inl rfl
  | some co =>
    by_cases h : co < t ∧ self.status = ResStatus.CheckedIn
    · exact Or.inr (by simp [h])
    · exact Or.inl (by simp [h])

/-- `superSave` only touches the reservations table. -/
theorem superSave_tables (db : DB) (s : Reservation) :
    (superSave db s).1.rooms = db.rooms ∧ (superSave db s).1.customers = db.customers ∧
    (superSave db s).1.incomes = db.incomes ∧ (superSave db s).1.expenses = db.expenses ∧
    (superSave db s).1.roomWrites = db.roomWrites := by
  unfold superSave
  cases s.pk with
  | none => exact ⟨rfl, rfl, rfl, rfl, rfl⟩
  | some p =>
    dsimp only
    by_cases h : db.reservations.any (fun r => r.pk == some p) = true
    · rw [if_pos h]
      exact ⟨rfl, rfl, rfl, rfl, rfl⟩
    · rw [if_neg h]
      exact ⟨rfl, rfl, rfl, rfl, rfl⟩

/-- `superSave` only populates the pk of the returned instance. -/
theorem superSave_obj (db : DB) (s : Reservation) :
    (superSave db s).2 = s ∨ (superSave db s).2 = { s with pk := some (nextPk db) } := by
  unfold superSave
  cases s.pk with
  | none => exact Or.inr rfl
  | some p =>
    dsimp only
    by_cases h : db.reservations.any (fun r => r.pk == some p) = true
    · rw [if_pos h]
      exact Or.inl rfl
    · rw [if_neg h]
      exact Or.inl rfl

theorem updateRoomStatus_eq (db : DB) (r : Nat) (room : Room)
    (hf : db.findRoom r = some room) :
    updateRoomStatus db (some r) =
      if room.status ≠ computeRoomStatus db.reservations r room.status then
        { db with
          rooms := db.rooms.map (fun rm =>
            if rm.id == r then
              { rm with status := computeRoomStatus db.reservations r room.status }
            else rm),
          roomWrites := db.roomWrites + 1 }
      else db := by
  simp only [updateRoomStatus, hf]

/-- `updateRoomStatus` only touches the rooms table and the write counter. -/
theorem updateRoomStatus_tables (db : DB) (rid : Option Nat) :
    (updateRoomStatus db rid).reservations = db.reservations ∧
    (updateRoomStatus db rid).customers = db.customers ∧
    (updateRoomStatus db rid).incomes = db.incomes ∧
    (updateRoomStatus db rid).expenses = db.expenses := by
  cases rid with
  | none => exact ⟨rfl, rfl, rfl, rfl⟩
  | some r =>
    cases hf : db.findRoom r with
    | none =>
      rw [show updateRoomStatus db (some r) = db from by simp only [updateRoomStatus, hf]]
      exact ⟨rfl, rfl, rfl, rfl⟩
    | some room =>
      rw [updateRoomStatus_eq db r room hf]
      by_cases h : room.status = computeRoomStatus db.reservations r room.status
      · rw [if_neg (by simpa using h)]
        exact ⟨rfl, rfl, rfl, rfl⟩
      · rw [if_pos h]
        exact ⟨rfl, rfl, rfl, rfl⟩

theorem roomNumberOf_map_status (db : DB) (r : Nat) (ns : RoomStatus) (x : Option Nat) :
    roomNumberOf
      { db with
        rooms := db.rooms.map (fun rm =>
          if rm.id == r then { rm with status := ns } else rm),
        roomWrites := db.roomWrites + 1 } x = roomNumberOf db x := by
  have hid : ∀ rm : Room,
      ((fun rm => if rm.id == r then { rm with status := ns } else rm) rm).id = rm.id := by
    intro rm
    dsimp only
    by_cases hx : (rm.id == r) = true
    · rw [if_pos hx]
    · rw [if_neg hx]
  cases x with
  | none => rfl
  | some xr =>
    show (match (db.rooms.map (fun rm =>
            if rm.id == r then { rm with status := ns } else rm)).find?
            (fun rm => rm.id == xr) with
          | some rm => rm.room_number
          | none => "") =
         (match db.rooms.find? (fun rm => rm.id == xr) with
          | some rm => rm.room_number
          | none => "")
    rw [find?_map_pres _ _ hid xr]
    cases db.rooms.find? (fun rm => rm.id == xr) with
    | none => rfl
    | some rm =>
      dsimp only [Option.map]
      by_cases hx : (rm.id == r) = true
      · rw [if_pos hx]
      · rw [if_neg hx]

/-- Room numbers survive `updateRoomStatus` (it only rewrites statuses). -/
theorem roomNumberOf_updateRoomStatus (db : DB) (rid x : Option Nat) :
    roomNumberOf (updateRoomStatus db rid) x = roomNumberOf db x := by
  cases rid with
  | none => rfl
  | some r =>
    cases hf : db.findRoom r with
    | none =>
      rw [show updateRoomStatus db (some r) = db from by simp only [updateRoomStatus, hf]]
    | some room =>
      rw [updateRoomStatus_eq db r room hf]
      by_cases h : room.status = computeRoomStatus db.reservations r room.status
      · rw [if_neg (by simpa using h)]
      · rw [if_pos h]
        exact roomNumberOf_map_status db r _ x

theorem roomUpdate_id (r : Nat) (ns : RoomStatus) (rm : Room) :
    (if rm.id == r then { rm with status := ns } else rm).id = rm.id := by
  by_cases hx : (rm.id == r) = true
  · rw [if_pos hx]
  · rw [if_neg hx]

theorem findRoom_congr (db1 db2 : DB) (h : db1.rooms = db2.rooms) (r : Nat) :
    db1.findRoom r = db2.findRoom r := by
  unfold DB.findRoom
  rw [h]

theorem roomNumberOf_congr (db1 db2 : DB) (h : db1.rooms = db2.rooms) (x : Option Nat) :
    roomNumberOf db1 x = roomNumberOf db2 x := by
  unfold roomNumberOf
  cases x with
  | none => rfl
  | some r =>
    dsimp only
    rw [findRoom_congr db1 db2 h r]

theorem customerNameOf_congr (db1 db2 : DB) (h : db1.customers = db2.customers) (cid : Nat) :
    customerNameOf db1 cid = customerNameOf db2 cid := by
  unfold customerNameOf
  rw [h]

/-- `createIncomeRecord` appends exactly one income row and marks the stored
row's `income_recorded`; nothing else changes. -/
theorem createIncomeRecord_parts (db : DB) (self : Reservation) (t : Int) :
    (createIncomeRecord db self t).rooms = db.rooms ∧
    (createIncomeRecord db self t).customers = db.customers ∧
    (createIncomeRecord db self t).expenses = db.expenses ∧
    (createIncomeRecord db self t).roomWrites = db.roomWrites ∧
    (createIncomeRecord db self t).incomes = db.incomes ++
      [{ date := t, amount := self.paid_amount, source := "Room",
         description := incomeDescFor db self }] ∧
    (createIncomeRecord db self t).reservations = db.reservations.map (fun r =>
      if r.pk == self.pk then { r with income_recorded := true } else r) :=
  ⟨rfl, rfl, rfl, rfl, rfl, rfl⟩

/-- `processRefund` never touches rooms, customers, the write counter, or the
number of income rows, and at most sets the instance's `refund_amount`. -/
theorem processRefund_parts (db : DB) (self : Reservation) (t : Int) :
    (processRefund db self t).1.rooms = db.rooms ∧
    (processRefund db self t).1.customers = db.customers ∧
    (processRefund db self t).1.roomWrites = db.roomWrites ∧
    (processRefund db self t).1.incomes.length = db.incomes.length ∧
    ((processRefund db self t).2 = self ∨
     (processRefund db self t).2 = { self with refund_amount := self.paid_amount }) := by
  unfold processRefund
  by_cases h : self.refund_recorded = true ∨ self.paid_amount ≤ 0
  · rw [if_pos h]
    exact ⟨rfl, rfl, rfl, rfl, Or.inl rfl⟩
  · rw [if_neg h]
    dsimp only
    by_cases hi : self.income_recorded = true
    · rw [if_pos hi]
      refine ⟨rfl, rfl, rfl, ?_, Or.inr rfl⟩
      dsimp only
      rw [annotateFirst_length]
    · rw [if_neg hi]
      exact ⟨rfl, rfl, rfl, rfl, Or.inr rfl⟩

/-- The derived room status ignores rewrites of reservations that keep both the
room reference and the status. -/
theorem computeRoomStatus_map (l : List Reservation) (f : Reservation → Reservation)
    (h : ∀ r, (f r).roomId = r.roomId ∧ (f r).status = r.status) (rid : Nat)
    (cur : RoomStatus) :
    computeRoomStatus (l.map f) rid cur = computeRoomStatus l rid cur := by
  unfold computeRoomStatus
  dsimp only
  have e : ∀ q : Reservation → Bool, (∀ a, q (f a) = q a) →
      ((l.map f).filter (fun r => r.roomId == some rid && isActive r.status)).any q
        = (l.filter (fun r => r.roomId == some rid && isActive r.status)).any q := by
    intro q hq
    rw [any_filter, any_filter, List.any_map]
    refine any_ext l _ _ (fun a => ?_)
    simp only [Function.comp_apply, (h a).1, (h a).2, hq a]
  rw [e (fun r => r.status == ResStatus.CheckedIn)
        (fun a => by dsimp only; rw [(h a).2]),
      e (fun r => r.status == ResStatus.Booked)
        (fun a => by dsimp only; rw [(h a).2])]

theorem computeRoomStatus_createIncome (db : DB) (self : Reservation) (t : Int)
    (rid : Nat) (cur : RoomStatus) :
    computeRoomStatus (createIncomeRecord db self t).reservations rid cur =
      computeRoomStatus db.reservations rid cur := by
  rw [(createIncomeRecord_parts db self t).2.2.2.2.2]
  refine computeRoomStatus_map _ _ (fun r => ?_) rid cur
  dsimp only
  by_cases hx : (r.pk == self.pk) = true
  · rw [if_pos hx]
    exact ⟨rfl, rfl⟩
  · rw [if_neg hx]
    exact ⟨rfl, rfl⟩

theorem computeRoomStatus_processRefund (db : DB) (self : Reservation) (t : Int)
    (rid : Nat) (cur : RoomStatus) :
    computeRoomStatus (processRefund db self t).1.reservations rid cur =
      computeRoomStatus db.reservations rid cur := by
  unfold processRefund
  by_cases h : self.refund_recorded = true ∨ self.paid_amount ≤ 0
  · rw [if_pos h]
  · rw [if_neg h]
    dsimp only
    by_cases hi : self.income_recorded = true
    · rw [if_pos hi]
      dsimp only
      refine computeRoomStatus_map _ _ (fun r => ?_) rid cur
      dsimp only
      by_cases hx : (r.pk == self.pk) = true
      · rw [if_pos hx]; exact ⟨rfl, rfl⟩
      · rw [if_neg hx]; exact ⟨rfl, rfl⟩
    · rw [if_neg hi]
      dsimp only
      refine computeRoomStatus_map _ _ (fun r => ?_) rid cur
      dsimp only
      by_cases hx : (r.pk == self.pk) = true
      · rw [if_pos hx]; exact ⟨rfl, rfl⟩
      · rw [if_neg hx]; exact ⟨rfl, rfl⟩

/-- The room row after `updateRoomStatus`, and the write-counting behaviour:
the row carries the derived status, and a write happened exactly when the
derived status differs from the current one. -/
theorem updateRoomStatus_findRoom (db : DB) (r : Nat) (room : Room)
    (hf : db.findRoom r = some room) :
    (updateRoomStatus db (some r)).findRoom r =
      some { room with status := computeRoomStatus db.reservations r room.status } ∧
    (updateRoomStatus db (some r)).roomWrites =
      db.roomWrites +
        (if computeRoomStatus db.reservations r room.status = room.status then 0 else 1) := by
  rw [updateRoomStatus_eq db r room hf]
  by_cases h : room.status = computeRoomStatus db.reservations r room.status
  · rw [if_neg (by simpa using h)]
    constructor
    · rw [hf, ← h]
    · rw [if_pos h.symm]
      omega
  · rw [if_pos h]
    constructor
    · show (List.map (fun rm =>
          if rm.id == r then
            { rm with status := computeRoomStatus db.reservations r room.status }
          else rm) db.rooms).find? (fun rm => rm.id == r) = _
      rw [find?_map_pres _ _ (fun rm => roomUpdate_id r _ rm) r]
      unfold DB.findRoom at hf
      rw [hf]
      have hid : (room.id == r) = true := by
        have := List.find?_some hf
        exact this
      dsimp only [Option.map]
      rw [if_pos hid]
    · rw [if_neg (fun hx => h hx.symm)]

theorem clean_fst_fields (self : Reservation) (db : DB) :
    ((self.clean db).1).roomId = self.roomId ∧
    ((self.clean db).1).check_in_date = self.check_in_date ∧
    ((self.clean db).1).check_out_date = self.check_out_date ∧
    ((self.clean db).1).pk = self.pk ∧
    ((self.clean db).1).status = self.status ∧
    ((self.clean db).1).number_of_guests = self.number_of_guests ∧
    ((self.clean db).1).income_recorded = self.income_recorded ∧
    ((self.clean db).1).refund_recorded = self.refund_recorded ∧
    ((self.clean db).1).customerId = self.customerId :=
  ⟨rfl, rfl, rfl, rfl, rfl, rfl, rfl, rfl, rfl⟩

theorem cleanedPaid_formula (self : Reservation) (db : DB) (rid : Nat) (room : Room)
    (cin cout : Int) (hroom : self.roomId = some rid) (hfind : db.findRoom rid = some room)
    (hcin : self.check_in_date = some cin) (hcout : self.check_out_date = some cout)
    (hlt : cin < cout) :
    cleanedPaid self db = (cout - cin) * room.price := by
  unfold cleanedPaid
  rw [hcin, hcout]
  dsimp only
  rw [if_neg (not_le.mpr hlt), hroom]
  dsimp only
  rw [hfind]

/-! ### The claims -/

/-- C10: refund processing is a no-op on a reservation whose `paid_amount` is
not positive: no expense entry is created, no income entry is annotated, and
both `refund_recorded` and `refund_amount` keep their values — `paid_amount > 0`
guards the refund trigger in addition to `refund_recorded`. -/
theorem C10_refund_zero_noop (db : DB) (self : Reservation) (today : Int)
    (hpaid : self.paid_amount ≤ 0) :
    processRefund db self today = (db, self) := by
  unfold processRefund
  rw [if_pos (Or.inr hpaid)]

/-- Witness for C10 at a concrete `Refunded` reservation with `paid_amount = 0`. -/
theorem C10_refund_zero_noop_witness :
    processRefund
      { reservations := [], rooms := [], customers := [], incomes := [], expenses := [],
        roomWrites := 0 }
      { pk := some 1, customerId := 1, roomId := some 1, check_in_date := some 1,
        check_out_date := some 2, number_of_guests := 1, status := ResStatus.Refunded,
        paid_amount := 0, refund_amount := 0, income_recorded := false,
        refund_recorded := false }
      5 =
    ({ reservations := [], rooms := [], customers := [], incomes := [], expenses := [],
       roomWrites := 0 },
     { pk := some 1, customerId := 1, roomId := some 1, check_in_date := some 1,
       check_out_date := some 2, number_of_guests := 1, status := ResStatus.Refunded,
       paid_amount := 0, refund_amount := 0, income_recorded := false,
       refund_recorded := false }) :=
  C10_refund_zero_noop _ _ _ (by decide)

/-- C2: on every validation pass of a reservation whose room and both dates are
set and whose check-in is before its check-out, `paid_amount` is unconditionally
recomputed as `(check_out - check_in) * room.price`, overwriting the stored
value, and repeating the validation yields the same amount (idempotent). -/
theorem C2_amount_recompute (self : Reservation) (db : DB) (rid : Nat) (room : Room)
    (cin cout : Int) (hroom : self.roomId = some rid) (hfind : db.findRoom rid = some room)
    (hcin : self.check_in_date = some cin) (hcout : self.check_out_date = some cout)
    (hlt : cin < cout) :
    ((self.clean db).1).paid_amount = (cout - cin) * room.price ∧
    (((self.clean db).1).clean db).1.paid_amount = (cout - cin) * room.price := by
  constructor
  · show cleanedPaid self db = (cout - cin) * room.price
    exact cleanedPaid_formula self db rid room cin cout hroom hfind hcin hcout hlt
  · show cleanedPaid ((self.clean db).1) db = (cout - cin) * room.price
    exact cleanedPaid_formula _ db rid room cin cout
      ((clean_fst_fields self db).1.trans hroom)
      hfind
      ((clean_fst_fields self db).2.1.trans hcin)
      ((clean_fst_fields self db).2.2.1.trans hcout)
      hlt

/-- Witness for C2: room price 100, interval `[10,12)` gives 200, twice. -/
theorem C2_amount_recompute_witness :
    ((({ pk := none, customerId := 1, roomId := some 1, check_in_date := some 10,
         check_out_date := some 12, number_of_guests := 2, status := ResStatus.Booked,
         paid_amount := 77, refund_amount := 0, income_recorded := false,
         refund_recorded := false } : Reservation).clean
      { reservations := [],
        rooms := [{ id := 1, room_number := "101", price := 100, capacity := 2,
                    status := RoomStatus.Available }],
        customers := [], incomes := [], expenses := [], roomWrites := 0 }).1).paid_amount =
      ((12 : Int) - 10) * 100 :=
  (C2_amount_recompute _ _ 1
    { id := 1, room_number := "101", price := 100, capacity := 2,
      status := RoomStatus.Available }
    10 12 rfl (by decide) rfl rfl (by decide)).1

/-- C5: the admin layer accepts exactly the transitions Booked→CheckedIn,
Booked→Refunded and CheckedIn→CheckedOut.  (a) any status change the admin form
validates is one of the three; (b) submitting `Refunded` for a `CheckedIn`
reservation is rejected with a ValidationError and the stored status is
unchanged; (c) reservations in the terminal states `CheckedOut`/`Refunded`
never change status through the form (the field is disabled); (d) none of the
batch actions touches a terminal reservation. -/
theorem C5_status_transitions :
    (∀ o s n : ResStatus,
      adminFormStatusClean (some o) s = { status := some n, errors := [] } → n ≠ o →
        (o = ResStatus.Booked ∧ (n = ResStatus.CheckedIn ∨ n = ResStatus.Refunded)) ∨
        (o = ResStatus.CheckedIn ∧ n = ResStatus.CheckedOut)) ∧
    ((adminFormStatusClean (some ResStatus.CheckedIn) ResStatus.Refunded).errors ≠ [] ∧
      adminFormResultStatus ResStatus.CheckedIn ResStatus.Refunded = ResStatus.CheckedIn) ∧
    (∀ o s : ResStatus, (o = ResStatus.CheckedOut ∨ o = ResStatus.Refunded) →
      adminFormResultStatus o s = o) ∧
    (∀ r : Reservation, (r.status = ResStatus.CheckedOut ∨ r.status = ResStatus.Refunded) →
      makeCheckinStep r = none ∧ makeCheckoutStep r = none ∧ cancelStep r = none) := by
  refine ⟨?_, ⟨by decide, by decide⟩, ?_, ?_⟩
  · intro o s n
    cases o <;> cases s <;> cases n <;> decide
  · intro o s h
    rcases h with h | h <;> subst h <;> cases s <;> decide
  · intro r h
    unfold makeCheckinStep makeCheckoutStep cancelStep
    rcases h with h | h <;> rw [h] <;> exact ⟨rfl, rfl, rfl⟩

/-- Witness for C5: the form accepting Booked→CheckedIn is one of the three
permitted transitions. -/
theorem C5_status_transitions_witness :
    (ResStatus.Booked = ResStatus.Booked ∧
      (ResStatus.CheckedIn = ResStatus.CheckedIn ∨ ResStatus.CheckedIn = ResStatus.Refunded)) ∨
    (ResStatus.Booked = ResStatus.CheckedIn ∧ ResStatus.CheckedIn = ResStatus.CheckedOut) :=
  C5_status_transitions.1 ResStatus.Booked ResStatus.CheckedIn ResStatus.CheckedIn
    (by decide) (by decide)

theorem mem_singleton_ite {x e : CleanError} {c : Prop} [Decidable c]
    (h : x ∈ (if c then [e] else [])) : x = e := by
  split at h
  · simpa using h
  · simp at h

/-- Every error `clean_fields` emits is a field-level error: the conflict error
never comes from `clean_fields`. -/
theorem mem_clean_fields (x : CleanError) (self : Reservation) (h : x ∈ clean_fields self) :
    x = CleanError.nullRoom ∨ x = CleanError.nullDate ∨ x = CleanError.guestBounds ∨
      x = CleanError.negativeAmount := by
  unfold clean_fields at h
  simp only [List.mem_append] at h
  rcases h with ((((h | h) | h) | h) | h) | h
  · exact Or.inl (mem_singleton_ite h)
  · exact Or.inr (Or.inl (mem_singleton_ite h))
  · exact Or.inr (Or.inl (mem_singleton_ite h))
  · exact Or.inr (Or.inr (Or.inl (mem_singleton_ite h)))
  · exact Or.inr (Or.inr (Or.inr (mem_singleton_ite h)))
  · exact Or.inr (Or.inr (Or.inr (mem_singleton_ite h)))

/-- The capacity check passes when the guest count fits the room. -/
theorem capacityErr_none (self : Reservation) (db : DB) (rid : Nat) (room : Room)
    (hroom : self.roomId = some rid) (hfind : db.findRoom rid = some room)
    (hcap : (self.number_of_guests : Int) ≤ room.capacity) :
    capacityErr self db = none := by
  unfold capacityErr
  rw [hroom]
  dsimp only
  by_cases g0 : self.number_of_guests ≠ 0
  · rw [if_pos g0, hfind]
    dsimp only
    rw [if_neg (not_lt.mpr hcap)]
  · rw [if_neg g0]

/-- Under the checks that precede conflict detection (valid date order, guest
count within capacity), `cleanError` reduces to the conflict check. -/
theorem cleanError_conflict_eq (db : DB) (self : Reservation) (rid : Nat) (room : Room)
    (cin cout : Int) (hroom : self.roomId = some rid) (hfind : db.findRoom rid = some room)
    (hcin : self.check_in_date = some cin) (hcout : self.check_out_date = some cout)
    (hlt : cin < cout) (hcap : (self.number_of_guests : Int) ≤ room.capacity) :
    cleanError self db =
      (if hasConflict db rid cin cout self.pk then
        some (CleanError.conflict room.room_number)
      else none) := by
  unfold cleanError
  rw [hcin, hcout]
  dsimp only
  rw [if_neg (not_le.mpr hlt)]
  unfold cleanTail
  have hcapn := capacityErr_none
    (Reservation.mk self.pk self.customerId self.roomId (some cin) (some cout)
      self.number_of_guests self.status (cleanedPaid self db) self.refund_amount
      self.income_recorded self.refund_recorded) db rid room hroom hfind hcap
  rw [hcapn]
  dsimp only
  unfold conflictErr
  dsimp only
  rw [hroom]
  dsimp only
  have hnum : roomNumberOf db (some rid) = room.room_number := by
    unfold roomNumberOf
    dsimp only
    rw [hfind]
  rw [hnum]

/-- C1 (amended): for a save of an active reservation whose date-order and
guest-capacity checks pass, validation fails with the error citing the room's
number iff some other reservation for the same room with status in
{Booked, CheckedIn} (the edited reservation's pk excluded) has an overlapping
half-open interval (`a < d AND c < b`, so back-to-back bookings are not
conflicts); without those preconditions an earlier validation error can mask an
existing overlap. -/
theorem C1_conflict_iff (db : DB) (self : Reservation) (rid : Nat) (room : Room)
    (cin cout : Int) (hactive : isActive self.status = true)
    (hroom : self.roomId = some rid) (hfind : db.findRoom rid = some room)
    (hcin : self.check_in_date = some cin) (hcout : self.check_out_date = some cout)
    (hlt : cin < cout) (hcap : (self.number_of_guests : Int) ≤ room.capacity) :
    (CleanError.conflict room.room_number ∈ (self.full_clean db).2 ↔
      hasConflict db rid cin cout self.pk = true) := by
  rw [full_clean_snd,
    cleanError_conflict_eq db self rid room cin cout hroom hfind hcin hcout hlt hcap]
  constructor
  · intro h
    rcases List.mem_append.mp h with h | h
    · rcases mem_clean_fields _ _ h with h | h | h | h <;> exact absurd h (by simp)
    · by_cases hc : hasConflict db rid cin cout self.pk = true
      · exact hc
      · rw [if_neg (by simpa using hc)] at h
        simp [Option.toList] at h
  · intro hc
    rw [if_pos hc]
    exact List.mem_append.mpr (Or.inr (by simp [Option.toList]))

def exC1room : Room :=
  { id := 1, room_number := "101", price := 100, capacity := 2,
    status := RoomStatus.Booked }

def exC1existing : Reservation :=
  { pk := some 1, customerId := 1, roomId := some 1, check_in_date := some 10,
    check_out_date := some 12, number_of_guests := 2, status := ResStatus.Booked,
    paid_amount := 200, refund_amount := 0, income_recorded := true,
    refund_recorded := false }

def exC1db : DB :=
  { reservations := [exC1existing], rooms := [exC1room], customers := [],
    incomes := [], expenses := [], roomWrites := 0 }

def exC1overlapping : Reservation :=
  { pk := none, customerId := 1, roomId := some 1, check_in_date := some 11,
    check_out_date := some 13, number_of_guests := 2, status := ResStatus.Booked,
    paid_amount := 0, refund_amount := 0, income_recorded := false,
    refund_recorded := false }

def exC1overbooked : Reservation :=
  { pk := none, customerId := 1, roomId := some 1, check_in_date := some 11,
    check_out_date := some 13, number_of_guests := 5, status := ResStatus.Booked,
    paid_amount := 0, refund_amount := 0, income_recorded := false,
    refund_recorded := false }

/-- Witness for C1: reservation `[11,13)` against an active booking `[10,12)`
in room 101 — the conflict error fires and the overlap predicate holds. -/
theorem C1_conflict_iff_witness :
    CleanError.conflict "101" ∈ (exC1overlapping.full_clean exC1db).2 ↔
      hasConflict exC1db 1 11 13 none = true :=
  C1_conflict_iff exC1db exC1overlapping 1 exC1room 11 13
    (by decide) (by decide) (by decide) (by decide) (by decide) (by decide) (by decide)

/-- Counterexample to C1 as stated: a save whose guest count exceeds the room's
capacity while an active reservation overlaps.  Validation fails with the
capacity error, not the error citing the room number, although the overlap
exists — so the claimed unconditional equivalence is false. -/
theorem C1_counterexample :
    ¬ (CleanError.conflict "101" ∈ (exC1overbooked.full_clean exC1db).2 ↔
        hasConflict exC1db 1 11 13 none = true) := by
  decide

/-- The in-memory instance a successful persist returns carries the
auto-checkout status: the later pipeline steps never change it. -/
theorem savePersist_obj_status (c : Reservation) (db : DB) (t : Int) :
    ((savePersist c db t).obj).status = (autoCheckout c t).status := by
  unfold savePersist
  dsimp only
  have hsup : ∀ x : Reservation, ((superSave db x).2).status = x.status := by
    intro x
    rcases superSave_obj db x with h | h <;> rw [h]
  repeat' split
  all_goals
    first
      | (rcases (processRefund_parts _ _ t).2.2.2.2 with hs | hs <;> rw [hs] <;> exact hsup _)
      | exact hsup _

/-- C6 (amended): a reservation whose check-out date is past and whose status
is `CheckedIn` is silently switched to `CheckedOut` by a save that passes
validation; the auto-transition runs after the validation pass (date, amount,
guest and conflict checks) and before persistence, so a save that fails
validation leaves the status unchanged. -/
theorem C6_auto_checkout (self : Reservation) (db : DB) (today cout : Int)
    (hsucc : (self.save db today).errors = [])
    (hco : self.check_out_date = some cout) (hpast : cout < today)
    (hst : self.status = ResStatus.CheckedIn) :
    ((self.save db today).obj).status = ResStatus.CheckedOut ∧
    (∀ (s2 : Reservation) (db2 : DB) (t2 : Int), (s2.save db2 t2).errors ≠ [] →
      ((s2.save db2 t2).obj).status = s2.status) := by
  constructor
  · rcases save_success self db today hsucc with ⟨_, heq⟩
    rw [heq, savePersist_obj_status]
    have hc2 : ((self.full_clean db).1).check_out_date = some cout := hco
    have hs2 : ((self.full_clean db).1).status = ResStatus.CheckedIn := hst
    unfold autoCheckout
    rw [hc2]
    dsimp only
    rw [if_pos ⟨hpast, hs2⟩]
  · intro s2 db2 t2 hfail
    rw [(save_failure s2 db2 t2 hfail).2]

def exC6room : Room :=
  { id := 1, room_number := "101", price := 100, capacity := 2,
    status := RoomStatus.Occupied }

def exC6res : Reservation :=
  { pk := some 1, customerId := 1, roomId := some 1, check_in_date := some 1,
    check_out_date := some 3, number_of_guests := 2, status := ResStatus.CheckedIn,
    paid_amount := 200, refund_amount := 0, income_recorded := true,
    refund_recorded := false }

def exC6db : DB :=
  { reservations := [exC6res], rooms := [exC6room],
    customers := [{ id := 1, name := "C1" }], incomes := [], expenses := [],
    roomWrites := 0 }

/-- A past-due `CheckedIn` reservation whose submitted dates are invalid
(check-in not before check-out). -/
def exC6bad : Reservation :=
  { exC6res with check_in_date := some 5, check_out_date := some 3 }

/-- Witness for C6: saving the past-due checked-in reservation on day 10
checks it out. -/
theorem C6_auto_checkout_witness :
    ((exC6res.save exC6db 10).obj).status = ResStatus.CheckedOut :=
  (C6_auto_checkout exC6res exC6db 10 3 (by decide) (by decide) (by decide) (by decide)).1

/-- Counterexample to C6 as stated: the auto-transition does NOT run before the
rest of the validation pass.  A past-due `CheckedIn` reservation submitted with
an invalid date order fails validation, and its status is still `CheckedIn`
after the save call — had the transition run before date validation, the status
would already be `CheckedOut`. -/
theorem C6_counterexample :
    exC6bad.status = ResStatus.CheckedIn ∧
    exC6bad.check_out_date = some 3 ∧ ((3 : Int) < 10) ∧
    (exC6bad.save exC6db 10).errors ≠ [] ∧
    ((exC6bad.save exC6db 10).obj).status = ResStatus.CheckedIn := by
  decide

/-- C8 (amended): deleting a reservation, room or customer with an active
({Booked, CheckedIn}) dependent reservation always fails and changes nothing;
editing a room with an active dependent reservation is likewise rejected; but
editing a customer is rejected only when some dependent reservation is
`CheckedIn` — a customer with merely `Booked` reservations can be edited. -/
theorem C8_guards (db : DB) (today : Int) :
    (∀ r : Reservation, isActive r.status = true →
      reservationDeleteModel db r today = db) ∧
    (∀ rm : Room,
      db.reservations.any (fun r => r.roomId == some rm.id && isActive r.status) = true →
        roomDeleteModel db rm = db ∧ roomEditAllowed db rm = false) ∧
    (∀ c : Customer,
      db.reservations.any (fun r => r.customerId == c.id && isActive r.status) = true →
        customerDeleteModel db c = db) ∧
    (∀ c : Customer,
      db.reservations.any
          (fun r => r.customerId == c.id && r.status == ResStatus.CheckedIn) = true →
        customerEditAllowed db c = false) := by
  refine ⟨?_, ?_, ?_, ?_⟩
  · intro r h
    unfold reservationDeleteModel
    rw [if_pos h]
  · intro rm h
    refine ⟨?_, ?_⟩
    · unfold roomDeleteModel
      rw [if_pos h]
    · unfold roomEditAllowed
      rw [h]
      rfl
  · intro c h
    unfold customerDeleteModel
    rw [if_pos h]
  · intro c h
    unfold customerEditAllowed
    rw [h]
    rfl

def exC8cust : Customer := { id := 1, name := "BookedOnly" }

def exC8cust2 : Customer := { id := 2, name := "CheckedInGuest" }

def exC8res : Reservation :=
  { pk := some 1, customerId := 1, roomId := some 1, check_in_date := some 1,
    check_out_date := some 3, number_of_guests := 1, status := ResStatus.Booked,
    paid_amount := 200, refund_amount := 0, income_recorded := true,
    refund_recorded := false }

def exC8res2 : Reservation :=
  { pk := some 2, customerId := 2, roomId := some 2, check_in_date := some 1,
    check_out_date := some 3, number_of_guests := 1, status := ResStatus.CheckedIn,
    paid_amount := 200, refund_amount := 0, income_recorded := true,
    refund_recorded := false }

def exC8db : DB :=
  { reservations := [exC8res, exC8res2],
    rooms := [{ id := 1, room_number := "101", price := 100, capacity := 2,
                status := RoomStatus.Booked },
              { id := 2, room_number := "102", price := 100, capacity := 2,
                status := RoomStatus.Occupied }],
    customers := [exC8cust, exC8cust2], incomes := [], expenses := [],
    roomWrites := 0 }

/-- Witness for C8: deleting the active reservation is refused with no state
change, and the customer with a `CheckedIn` reservation cannot be edited. -/
theorem C8_guards_witness :
    reservationDeleteModel exC8db exC8res 0 = exC8db ∧
    customerEditAllowed exC8db exC8cust2 = false :=
  ⟨(C8_guards exC8db 0).1 exC8res (by decide),
   (C8_guards exC8db 0).2.2.2 exC8cust2 (by decide)⟩

/-- Counterexample to C8 as stated: a customer with an active (`Booked`)
dependent reservation can still be edited — the customer edit guard only
rejects when a dependent reservation is `CheckedIn`. -/
theorem C8_counterexample :
    exC8db.reservations.any
        (fun r => r.customerId == exC8cust.id && isActive r.status) = true ∧
    customerEditAllowed exC8db exC8cust = true := by
  decide

/-- `autoCheckout` changes the status at most; every other field survives. -/
theorem autoCheckout_pres (c : Reservation) (t : Int) :
    (autoCheckout c t).pk = c.pk ∧ (autoCheckout c t).paid_amount = c.paid_amount ∧
    (autoCheckout c t).income_recorded = c.income_recorded ∧
    (autoCheckout c t).refund_recorded = c.refund_recorded ∧
    (autoCheckout c t).roomId = c.roomId ∧ (autoCheckout c t).customerId = c.customerId ∧
    (autoCheckout c t).check_in_date = c.check_in_date ∧
    (autoCheckout c t).check_out_date = c.check_out_date ∧
    (autoCheckout c t).number_of_guests = c.number_of_guests := by
  rcases autoCheckout_cases c t with h | h <;> rw [h] <;>
    exact ⟨rfl, rfl, rfl, rfl, rfl, rfl, rfl, rfl, rfl⟩

/-- `superSave` populates the pk at most; every other field survives. -/
theorem superSave_obj_pres (db : DB) (s : Reservation) :
    ((superSave db s).2).status = s.status ∧
    ((superSave db s).2).paid_amount = s.paid_amount ∧
    ((superSave db s).2).income_recorded = s.income_recorded ∧
    ((superSave db s).2).refund_recorded = s.refund_recorded ∧
    ((superSave db s).2).roomId = s.roomId ∧
    ((superSave db s).2).customerId = s.customerId ∧
    ((superSave db s).2).check_in_date = s.check_in_date ∧
    ((superSave db s).2).check_out_date = s.check_out_date ∧
    ((superSave db s).2).number_of_guests = s.number_of_guests := by
  rcases superSave_obj db s with h | h <;> rw [h] <;>
    exact ⟨rfl, rfl, rfl, rfl, rfl, rfl, rfl, rfl, rfl⟩

/-- `processRefund` sets the instance's `refund_amount` at most. -/
theorem processRefund_obj_pres (db : DB) (s : Reservation) (t : Int) :
    ((processRefund db s t).2).pk = s.pk ∧
    ((processRefund db s t).2).status = s.status ∧
    ((processRefund db s t).2).paid_amount = s.paid_amount ∧
    ((processRefund db s t).2).income_recorded = s.income_recorded ∧
    ((processRefund db s t).2).roomId = s.roomId ∧
    ((processRefund db s t).2).customerId = s.customerId ∧
    ((processRefund db s t).2).check_in_date = s.check_in_date ∧
    ((processRefund db s t).2).check_out_date = s.check_out_date ∧
    ((processRefund db s t).2).number_of_guests = s.number_of_guests := by
  rcases (processRefund_parts db s t).2.2.2.2 with h | h <;> rw [h] <;>
    exact ⟨rfl, rfl, rfl, rfl, rfl, rfl, rfl, rfl, rfl⟩

/-- Without the instance-level `income_recorded` flag, `processRefund` leaves
the income table untouched (the annotation step is skipped). -/
theorem processRefund_incomes_noann (db : DB) (s : Reservation) (t : Int)
    (h : s.income_recorded = false) :
    (processRefund db s t).1.incomes = db.incomes := by
  unfold processRefund
  by_cases hg : s.refund_recorded = true ∨ s.paid_amount ≤ 0
  · rw [if_pos hg]
  · rw [if_neg hg]
    dsimp only
    rw [if_neg (by rw [h]; exact Bool.false_ne_true)]

/-- The reservations table after `processRefund`: either untouched, or rewritten
by the direct refund-flag update. -/
theorem processRefund_reservations (db : DB) (s : Reservation) (t : Int) :
    (processRefund db s t).1.reservations = db.reservations ∨
    (processRefund db s t).1.reservations = db.reservations.map (fun r =>
      if r.pk == s.pk then
        { r with refund_recorded := true, refund_amount := s.paid_amount }
      else r) := by
  unfold processRefund
  by_cases hg : s.refund_recorded = true ∨ s.paid_amount ≤ 0
  · rw [if_pos hg]
    exact Or.inl rfl
  · rw [if_neg hg]
    dsimp only
    by_cases hi : s.income_recorded = true
    · rw [if_pos hi]
      exact Or.inr rfl
    · rw [if_neg hi]
      exact Or.inr rfl

/-- `processRefund` leaves the expense table untouched when its guard (already
refunded, or nothing paid) fires, and appends exactly the refund expense
otherwise. -/
theorem processRefund_expenses (db : DB) (s : Reservation) (t : Int) :
    ((s.refund_recorded = true ∨ s.paid_amount ≤ 0) →
      (processRefund db s t).1.expenses = db.expenses) ∧
    (s.refund_recorded = false → 0 < s.paid_amount →
      (processRefund db s t).1.expenses = db.expenses ++
        [{ date := t, amount := s.paid_amount, category := "Other",
           description := refundDescFor db { s with refund_amount := s.paid_amount } }]) := by
  constructor
  · intro hg
    unfold processRefund
    rw [if_pos hg]
  · intro h1 h2
    unfold processRefund
    rw [if_neg (by rw [h1]; simp; omega)]
    dsimp only
    by_cases hi : s.income_recorded = true
    · rw [if_pos hi]
    · rw [if_neg hi]

/-- After `createIncomeRecord`, every stored row with the instance's pk has its
`income_recorded` flag set. -/
theorem createIncomeRecord_flag (db : DB) (o : Reservation) (t : Int) :
    ∀ r ∈ (createIncomeRecord db o t).reservations, r.pk = o.pk →
      r.income_recorded = true := by
  intro r hr hpk
  rw [(createIncomeRecord_parts db o t).2.2.2.2.2] at hr
  rcases List.mem_map.mp hr with ⟨a, _, rfl⟩
  by_cases hx : (a.pk == o.pk) = true
  · rw [if_pos hx]
  · rw [if_neg hx] at hpk ⊢
    exact absurd (beq_iff_eq.mpr hpk) hx

/-- The description cooked up inside the save pipeline (against the store after
persist and room sync) equals the one against the original store: those steps
do not touch customers, and keep room identities and numbers. -/
theorem incomeDescFor_db2 (db : DB) (s2 : Reservation) (x : Option Nat) (o : Reservation) :
    incomeDescFor (updateRoomStatus (superSave db s2).1 x) o = incomeDescFor db o := by
  unfold incomeDescFor
  rw [roomNumberOf_updateRoomStatus,
    customerNameOf_congr _ _ ((updateRoomStatus_tables (superSave db s2).1 x).2.1),
    roomNumberOf_congr _ db ((superSave_tables db s2).1),
    customerNameOf_congr _ db ((superSave_tables db s2).2.1)]

/-- The income entry the engine writes for a reservation: source `"Room"`,
dated today, amount `paid_amount`, description embedding the reservation id,
customer name, room number, date range and guest count. -/
def incomeEntryFor (db : DB) (o : Reservation) (t : Int) : Income :=
  { date := t, amount := o.paid_amount, source := "Room",
    description := incomeDescFor db o }

theorem incomeDescFor_ext (db : DB) (a b : Reservation) (h1 : a.pk = b.pk)
    (h2 : a.customerId = b.customerId) (h3 : a.roomId = b.roomId)
    (h4 : a.check_in_date = b.check_in_date) (h5 : a.check_out_date = b.check_out_date)
    (h6 : a.number_of_guests = b.number_of_guests) :
    incomeDescFor db a = incomeDescFor db b := by
  unfold incomeDescFor
  rw [h1, h2, h3, h4, h5, h6]

/-- The "every row with this pk has `income_recorded`" property survives the
refund step's direct update. -/
theorem flag_through_refund (db : DB) (s : Reservation) (t : Int) (pk0 : Option Nat)
    (H : ∀ r ∈ db.reservations, r.pk = pk0 → r.income_recorded = true) :
    ∀ r ∈ (processRefund db s t).1.reservations, r.pk = pk0 →
      r.income_recorded = true := by
  intro r hr hpk
  rcases processRefund_reservations db s t with h | h
  · rw [h] at hr
    exact H r hr hpk
  · rw [h] at hr
    rcases List.mem_map.mp hr with ⟨a, ha, rfl⟩
    by_cases hx : (a.pk == s.pk) = true
    · rw [if_pos hx] at hpk ⊢
      exact H a ha hpk
    · rw [if_neg hx] at hpk ⊢
      exact H a ha hpk

/-- The persist pipeline on an instance with a positive amount and an unset
income flag: exactly one income entry is appended (with the structured
description), and the stored row's flag is set by the direct update. -/
theorem savePersist_income (c : Reservation) (db : DB) (t : Int)
    (hpaid : 0 < c.paid_amount) (hrec : c.income_recorded = false) :
    (savePersist c db t).db.incomes =
      db.incomes ++ [incomeEntryFor db ((savePersist c db t).obj) t] ∧
    (∀ r ∈ (savePersist c db t).db.reservations,
      r.pk = ((savePersist c db t).obj).pk → r.income_recorded = true) := by
  unfold savePersist
  dsimp only
  set s2 := autoCheckout c t with hs2def
  set o := (superSave db s2).2 with hodef
  have hopaid : o.paid_amount = c.paid_amount := by
    rw [hodef, (superSave_obj_pres db s2).2.1, hs2def, (autoCheckout_pres c t).2.1]
  have horec : o.income_recorded = false := by
    rw [hodef, (superSave_obj_pres db s2).2.2.1, hs2def, (autoCheckout_pres c t).2.2.1, hrec]
  rw [if_pos (⟨by rw [hopaid]; exact hpaid, horec⟩ :
    o.paid_amount > 0 ∧ o.income_recorded = false)]
  constructor
  · split
    · rw [processRefund_incomes_noann _ o t horec,
        (createIncomeRecord_parts _ o t).2.2.2.2.1,
        (updateRoomStatus_tables _ _).2.2.1, (superSave_tables db s2).2.2.1]
      congr 1
      unfold incomeEntryFor
      rw [incomeDescFor_db2 db s2 o.roomId o,
        incomeDescFor_ext db ((processRefund _ o t).2) o
          (processRefund_obj_pres _ o t).1
          (processRefund_obj_pres _ o t).2.2.2.2.2.1
          (processRefund_obj_pres _ o t).2.2.2.2.1
          (processRefund_obj_pres _ o t).2.2.2.2.2.2.1
          (processRefund_obj_pres _ o t).2.2.2.2.2.2.2.1
          (processRefund_obj_pres _ o t).2.2.2.2.2.2.2.2,
        (processRefund_obj_pres _ o t).2.2.1]
    · rw [(createIncomeRecord_parts _ o t).2.2.2.2.1,
        (updateRoomStatus_tables _ _).2.2.1, (superSave_tables db s2).2.2.1]
      congr 1
      unfold incomeEntryFor
      rw [incomeDescFor_db2 db s2 o.roomId o]
  · split
    · intro r hr hpk
      refine flag_through_refund _ o t ((processRefund _ o t).2).pk ?_ r hr hpk
      intro a ha hapk
      refine createIncomeRecord_flag _ o t a ha ?_
      rw [hapk, (processRefund_obj_pres _ o t).1]
    · exact createIncomeRecord_flag _ o t

/-- The persist pipeline never adds or removes income rows once the instance's
`income_recorded` flag is set (the refund step may only annotate one). -/
theorem savePersist_incomes_length (c : Reservation) (db : DB) (t : Int)
    (hrec : c.income_recorded = true) :
    (savePersist c db t).db.incomes.length = db.incomes.length := by
  unfold savePersist
  dsimp only
  set s2 := autoCheckout c t with hs2def
  set o := (superSave db s2).2 with hodef
  have horec : o.income_recorded = true := by
    rw [hodef, (superSave_obj_pres db s2).2.2.1, hs2def, (autoCheckout_pres c t).2.2.1, hrec]
  rw [if_neg (show ¬(o.paid_amount > 0 ∧ o.income_recorded = false) from
    fun hcond => by rw [horec] at hcond; exact absurd hcond.2 (by simp))]
  split
  · rw [(processRefund_parts _ o t).2.2.2.1, (updateRoomStatus_tables _ _).2.2.1,
      (superSave_tables db s2).2.2.1]
  · rw [(updateRoomStatus_tables _ _).2.2.1, (superSave_tables db s2).2.2.1]

/-- Any save of an instance whose `income_recorded` flag is already set keeps
the number of income rows (no second income entry, no deletion). -/
theorem save_incomes_length_of_recorded :
    ∀ (r2 : Reservation) (db2 : DB) (t2 : Int), r2.income_recorded = true →
      ((r2.save db2 t2).db).incomes.length = db2.incomes.length := by
  intro r2 db2 t2 h
  by_cases hfc : (r2.full_clean db2).2 = []
  · have heq : r2.save db2 t2 = savePersist (r2.full_clean db2).1 db2 t2 := by
      simp [Reservation.save, hfc]
    rw [heq]
    exact savePersist_incomes_length _ db2 t2 h
  · have hfail : (r2.save db2 t2).errors ≠ [] := by
      simp [Reservation.save, hfc]
    rw [(save_failure r2 db2 t2 hfail).1]

/-- C3: after any successful save with a positive (recomputed) `paid_amount`
and `income_recorded` unset, exactly one income entry is created — source
`"Room"`, amount `paid_amount`, dated today, description embedding the
reservation id, customer name, room number, date range and guest count — and
the stored row's `income_recorded` is set through the direct non-validating
update; any later save of an instance whose `income_recorded` flag is set
leaves the number of income entries unchanged, so the flag transitions
false→true at most once and no second income entry ever appears. -/
theorem C3_income_once (self : Reservation) (db : DB) (today : Int)
    (hsucc : (self.save db today).errors = [])
    (hpaid : 0 < ((self.full_clean db).1).paid_amount)
    (hrec : self.income_recorded = false) :
    (self.save db today).db.incomes =
      db.incomes ++ [incomeEntryFor db ((self.save db today).obj) today] ∧
    (∀ r ∈ (self.save db today).db.reservations,
      r.pk = ((self.save db today).obj).pk → r.income_recorded = true) ∧
    (∀ (r2 : Reservation) (db2 : DB) (t2 : Int), r2.income_recorded = true →
      ((r2.save db2 t2).db).incomes.length = db2.incomes.length) := by
  rcases save_success self db today hsucc with ⟨_, heq⟩
  have hc : ((self.full_clean db).1).income_recorded = false := hrec
  refine ⟨?_, ?_, save_incomes_length_of_recorded⟩
  · rw [heq]
    exact (savePersist_income _ db today hpaid hc).1
  · rw [heq]
    exact (savePersist_income _ db today hpaid hc).2

def exC3room : Room :=
  { id := 1, room_number := "101", price := 100, capacity := 2,
    status := RoomStatus.Available }

def exC3res : Reservation :=
  { pk := none, customerId := 1, roomId := some 1, check_in_date := some 10,
    check_out_date := some 12, number_of_guests := 2, status := ResStatus.Booked,
    paid_amount := 0, refund_amount := 0, income_recorded := false,
    refund_recorded := false }

def exC3db : DB :=
  { reservations := [], rooms := [exC3room], customers := [{ id := 1, name := "C1" }],
    incomes := [], expenses := [], roomWrites := 0 }

/-- Witness for C3: creating the scenario-1 reservation writes exactly one
income entry with the structured description. -/
theorem C3_income_once_witness :
    (exC3res.save exC3db 5).db.incomes =
      exC3db.incomes ++ [incomeEntryFor exC3db ((exC3res.save exC3db 5).obj) 5] :=
  (C3_income_once exC3res exC3db 5 (by decide) (by decide) (by decide)).1

/-- `autoCheckout` does not touch instances that are not `CheckedIn`. -/
theorem autoCheckout_of_not_checkedin (c : Reservation) (t : Int)
    (h : c.status ≠ ResStatus.CheckedIn) : autoCheckout c t = c := by
  unfold autoCheckout
  cases c.check_out_date with
  | none => rfl
  | some co =>
    dsimp only
    rw [if_neg (fun hc => h hc.2)]

/-- `super().save()` on an instance that already has a pk returns it as is. -/
theorem superSave_obj_of_pk (db : DB) (c : Reservation) (p : Nat) (h : c.pk = some p) :
    (superSave db c).2 = c := by
  unfold superSave
  rw [h]
  dsimp only
  by_cases hc : (db.reservations.any fun r => r.pk == some p) = true
  · rw [if_pos hc]
  · rw [if_neg hc]

theorem refundDescFor_db2 (db : DB) (s2 : Reservation) (x : Option Nat) (o : Reservation) :
    refundDescFor (updateRoomStatus (superSave db s2).1 x) o = refundDescFor db o := by
  unfold refundDescFor
  rw [roomNumberOf_updateRoomStatus,
    customerNameOf_congr _ _ ((updateRoomStatus_tables (superSave db s2).1 x).2.1),
    roomNumberOf_congr _ db ((superSave_tables db s2).1),
    customerNameOf_congr _ db ((superSave_tables db s2).2.1)]

/-- The expense entry the engine writes when refunding a reservation. -/
def refundExpenseFor (db : DB) (o : Reservation) (t : Int) : Expense :=
  { date := t, amount := o.paid_amount, category := "Other",
    description := refundDescFor db { o with refund_amount := o.paid_amount } }

/-- The persist pipeline on a stored non-`Refunded` reservation being updated to
`Refunded` with money paid, the income already recorded and no refund recorded
yet: exactly one `"Other"` expense dated today is appended, the matching income
entry is annotated, every stored row with this pk gets `refund_recorded = true`
and `refund_amount = paid_amount`, and the in-memory instance gets the full
refund amount. -/
theorem savePersist_refund (c : Reservation) (db : DB) (t : Int) (p : Nat) (st : ResStatus)
    (hpk : c.pk = some p) (hrow : lookupStatus db (some p) = some st)
    (hst : st ≠ ResStatus.Refunded) (hself : c.status = ResStatus.Refunded)
    (hrec : c.refund_recorded = false) (hinc : c.income_recorded = true)
    (hpaid : 0 < c.paid_amount) :
    (savePersist c db t).db.expenses =
      db.expenses ++ [refundExpenseFor db ((savePersist c db t).obj) t] ∧
    (savePersist c db t).db.incomes =
      annotateFirst db.incomes (idPat ((savePersist c db t).obj))
        (refundSuffix (((savePersist c db t).obj)).paid_amount) ∧
    (∀ r ∈ (savePersist c db t).db.reservations, r.pk = some p →
      r.refund_recorded = true ∧
        r.refund_amount = ((savePersist c db t).obj).paid_amount) ∧
    ((savePersist c db t).obj).refund_amount = ((savePersist c db t).obj).paid_amount := by
  unfold savePersist
  dsimp only
  have hs2c : autoCheckout c t = c :=
    autoCheckout_of_not_checkedin c t (by rw [hself]; decide)
  rw [hs2c, superSave_obj_of_pk db c p hpk]
  rw [if_neg (show ¬(c.paid_amount > 0 ∧ c.income_recorded = false) from
    fun hcond => by rw [hinc] at hcond; exact absurd hcond.2 (by simp))]
  rw [if_pos (show ((c.pk == none) = false) ∧
      lookupStatus db c.pk ≠ some ResStatus.Refunded ∧ c.status = ResStatus.Refunded from
    ⟨by rw [hpk]; rfl,
     by rw [hpk, hrow]; exact fun h => hst (Option.some.inj h),
     hself⟩)]
  unfold processRefund
  rw [if_neg (show ¬(c.refund_recorded = true ∨ c.paid_amount ≤ 0) from fun h => by
    rcases h with h | h
    · rw [hrec] at h
      exact absurd h (by simp)
    · omega)]
  dsimp only
  rw [if_pos hinc]
  dsimp only
  refine ⟨?_, ?_, ?_, rfl⟩
  · rw [(updateRoomStatus_tables _ _).2.2.2, (superSave_tables db c).2.2.2.1]
    unfold refundExpenseFor
    dsimp only
    rw [refundDescFor_db2 db c c.roomId]
  · rw [(updateRoomStatus_tables _ _).2.2.1, (superSave_tables db c).2.2.1]
  · intro r hr hpkr
    rw [(updateRoomStatus_tables _ _).1] at hr
    rcases List.mem_map.mp hr with ⟨a, _, rfl⟩
    by_cases hx : (a.pk == c.pk) = true
    · rw [if_pos hx]
      exact ⟨rfl, rfl⟩
    · rw [if_neg hx] at hpkr ⊢
      exact absurd (beq_iff_eq.mpr (by rw [hpkr, hpk])) hx

/-- C4: when a stored reservation transitions from a non-`Refunded` status to
`Refunded` on a successful save (with money paid, the income recorded, and no
refund recorded yet), refund processing sets `refund_amount = paid_amount`
(full refund), appends exactly one expense entry of category `"Other"` dated
today with that amount, appends the refund annotation to the first income entry
matching the reservation-id substring (no-op when none exists), and sets the
stored row's `refund_recorded` and `refund_amount` through the direct
non-validating update; moreover refund processing is a no-op on any instance
whose `refund_recorded` flag is already set (at-most-once). -/
theorem C4_refund_once (self : Reservation) (db : DB) (today : Int) (p : Nat)
    (st : ResStatus) (hsucc : (self.save db today).errors = [])
    (hpk : self.pk = some p) (hrow : lookupStatus db (some p) = some st)
    (hst : st ≠ ResStatus.Refunded) (hself : self.status = ResStatus.Refunded)
    (hrec : self.refund_recorded = false) (hinc : self.income_recorded = true)
    (hpaid : 0 < ((self.full_clean db).1).paid_amount) :
    (self.save db today).db.expenses =
      db.expenses ++ [refundExpenseFor db ((self.save db today).obj) today] ∧
    (self.save db today).db.incomes =
      annotateFirst db.incomes (idPat ((self.save db today).obj))
        (refundSuffix (((self.save db today).obj)).paid_amount) ∧
    (∀ r ∈ (self.save db today).db.reservations, r.pk = some p →
      r.refund_recorded = true ∧
        r.refund_amount = ((self.save db today).obj).paid_amount) ∧
    ((self.save db today).obj).refund_amount = ((self.save db today).obj).paid_amount ∧
    (∀ (db2 : DB) (s2 : Reservation) (t2 : Int), s2.refund_recorded = true →
      processRefund db2 s2 t2 = (db2, s2)) := by
  rcases save_success self db today hsucc with ⟨_, heq⟩
  have h1 : ((self.full_clean db).1).pk = some p := hpk
  have h2 : ((self.full_clean db).1).status = ResStatus.Refunded := hself
  have h3 : ((self.full_clean db).1).refund_recorded = false := hrec
  have h4 : ((self.full_clean db).1).income_recorded = true := hinc
  have main := savePersist_refund ((self.full_clean db).1) db today p st h1 hrow hst h2 h3
    h4 hpaid
  refine ⟨?_, ?_, ?_, ?_, ?_⟩
  · rw [heq]; exact main.1
  · rw [heq]; exact main.2.1
  · rw [heq]; exact main.2.2.1
  · rw [heq]; exact main.2.2.2
  · intro db2 s2 t2 h
    unfold processRefund
    rw [if_pos (Or.inl h)]

def exC4room : Room :=
  { id := 1, room_number := "101", price := 100, capacity := 2,
    status := RoomStatus.Booked }

def exC4res : Reservation :=
  { pk := some 1, customerId := 1, roomId := some 1, check_in_date := some 10,
    check_out_date := some 12, number_of_guests := 2, status := ResStatus.Booked,
    paid_amount := 200, refund_amount := 0, income_recorded := true,
    refund_recorded := false }

def exC4income : Income :=
  { date := 5, amount := 200, source := "Room",
    description := incomeDescFor
      { reservations := [], rooms := [exC4room],
        customers := [{ id := 1, name := "C1" }], incomes := [], expenses := [],
        roomWrites := 0 } exC4res }

def exC4db : DB :=
  { reservations := [exC4res], rooms := [exC4room],
    customers := [{ id := 1, name := "C1" }], incomes := [exC4income],
    expenses := [], roomWrites := 0 }

/-- The stored reservation, updated to `Refunded` (a booked-order cancellation). -/
def exC4refunding : Reservation := { exC4res with status := ResStatus.Refunded }

/-- Witness for C4: cancelling the booked reservation creates the 200-yuan
`"Other"` expense and pays back the full amount. -/
theorem C4_refund_once_witness :
    (exC4refunding.save exC4db 6).db.expenses =
      exC4db.expenses ++
        [refundExpenseFor exC4db ((exC4refunding.save exC4db 6).obj) 6] ∧
    ((exC4refunding.save exC4db 6).obj).refund_amount =
      ((exC4refunding.save exC4db 6).obj).paid_amount := by
  have h := C4_refund_once exC4refunding exC4db 6 1 ResStatus.Booked (by decide)
    (by decide) (by decide) (by decide) (by decide) (by decide) (by decide) (by decide)
  exact ⟨h.1, h.2.2.2.1⟩

/-- Rows rewritten only at a pk vanish identically under the pk-excluding
filter that models `super().delete()`. -/
theorem filter_out_map (l : List Reservation) (pk0 : Option Nat)
    (g : Reservation → Reservation) (hgpk : ∀ r, (g r).pk = r.pk)
    (hg : ∀ r, (r.pk == pk0) = false → g r = r) :
    (l.map g).filter (fun r => !(r.pk == pk0)) = l.filter (fun r => !(r.pk == pk0)) := by
  induction l with
  | nil => rfl
  | cons a tl ih =>
    by_cases hx : (a.pk == pk0) = true
    · simp only [List.map_cons, List.filter_cons, hgpk a, hx, Bool.not_true,
        Bool.false_eq_true, if_false]
      exact ih
    · have hx2 : (a.pk == pk0) = false := by
        revert hx
        cases a.pk == pk0 <;> simp
      simp only [List.map_cons, List.filter_cons, hgpk a, hx2, Bool.not_false, if_true,
        hg a hx2]
      rw [ih]

/-- A status write through `updateRoomStatus` against a store whose rooms and
write counter agree with a base store. -/
theorem updateRoomStatus_room_spec (dbx db0 : DB) (rid : Nat) (room : Room)
    (hrooms : dbx.rooms = db0.rooms) (hwrites : dbx.roomWrites = db0.roomWrites)
    (hfind : db0.findRoom rid = some room) :
    (updateRoomStatus dbx (some rid)).findRoom rid =
      some { room with status :=
        computeRoomStatus (updateRoomStatus dbx (some rid)).reservations rid room.status } ∧
    (updateRoomStatus dbx (some rid)).roomWrites = db0.roomWrites +
      (if computeRoomStatus (updateRoomStatus dbx (some rid)).reservations rid room.status
          = room.status then 0 else 1) := by
  have hfx : dbx.findRoom rid = some room := by
    rw [findRoom_congr dbx db0 hrooms]
    exact hfind
  have h := updateRoomStatus_findRoom dbx rid room hfx
  refine ⟨?_, ?_⟩
  · rw [h.1, (updateRoomStatus_tables dbx (some rid)).1]
  · rw [h.2, hwrites, (updateRoomStatus_tables dbx (some rid)).1]

/-- The four shapes the store can take between persist and room sync keep the
rooms, the write counter and the derived room status. -/
theorem pipeline_tail_room (D2 : DB) (o : Reservation) (t : Int) (rid : Nat)
    (cur : RoomStatus) (W : DB)
    (h : W = D2 ∨ W = createIncomeRecord D2 o t ∨ W = (processRefund D2 o t).1 ∨
         W = (processRefund (createIncomeRecord D2 o t) o t).1) :
    W.rooms = D2.rooms ∧ W.roomWrites = D2.roomWrites ∧
    computeRoomStatus W.reservations rid cur =
      computeRoomStatus D2.reservations rid cur := by
  rcases h with h | h | h | h <;> subst h
  · exact ⟨rfl, rfl, rfl⟩
  · exact ⟨(createIncomeRecord_parts D2 o t).1, (createIncomeRecord_parts D2 o t).2.2.2.1,
      computeRoomStatus_createIncome D2 o t rid cur⟩
  · exact ⟨(processRefund_parts D2 o t).1, (processRefund_parts D2 o t).2.2.1,
      computeRoomStatus_processRefund D2 o t rid cur⟩
  · refine ⟨?_, ?_, ?_⟩
    · rw [(processRefund_parts _ o t).1, (createIncomeRecord_parts D2 o t).1]
    · rw [(processRefund_parts _ o t).2.2.1, (createIncomeRecord_parts D2 o t).2.2.2.1]
    · rw [computeRoomStatus_processRefund _ o t rid cur,
        computeRoomStatus_createIncome D2 o t rid cur]

/-- After a persist, the reservation's room carries the derived status, and the
room row was written exactly when the derived status differed. -/
theorem savePersist_room (c : Reservation) (db : DB) (t : Int) (rid : Nat) (room : Room)
    (hroom : c.roomId = some rid) (hfind : db.findRoom rid = some room) :
    (savePersist c db t).db.findRoom rid =
      some { room with status :=
        computeRoomStatus ((savePersist c db t).db).reservations rid room.status } ∧
    (savePersist c db t).db.roomWrites = db.roomWrites +
      (if computeRoomStatus ((savePersist c db t).db).reservations rid room.status
          = room.status then 0 else 1) := by
  unfold savePersist
  dsimp only
  set s2 := autoCheckout c t with hs2def
  set o := (superSave db s2).2 with hodef
  have hor : o.roomId = some rid := by
    rw [hodef, (superSave_obj_pres db s2).2.2.2.2.1, hs2def,
      (autoCheckout_pres c t).2.2.2.2.1, hroom]
  rw [hor]
  set db1 := (superSave db s2).1 with hdb1def
  have hfind1 : db1.findRoom rid = some room := by
    rw [hdb1def, findRoom_congr _ db (superSave_tables db s2).1]
    exact hfind
  have hD2res : (updateRoomStatus db1 (some rid)).reservations = db1.reservations :=
    (updateRoomStatus_tables db1 (some rid)).1
  have hup := updateRoomStatus_findRoom db1 rid room hfind1
  have hw1 : db1.roomWrites = db.roomWrites := by
    rw [hdb1def]
    exact (superSave_tables db s2).2.2.2.2
  constructor
  · split
    · split
      · have hw := pipeline_tail_room (updateRoomStatus db1 (some rid)) o t rid
          room.status _ (Or.inr (Or.inr (Or.inr rfl)))
        rw [findRoom_congr _ _ hw.1 rid, hup.1, hw.2.2, hD2res]
      · have hw := pipeline_tail_room (updateRoomStatus db1 (some rid)) o t rid
          room.status _ (Or.inr (Or.inr (Or.inl rfl)))
        rw [findRoom_congr _ _ hw.1 rid, hup.1, hw.2.2, hD2res]
    · split
      · have hw := pipeline_tail_room (updateRoomStatus db1 (some rid)) o t rid
          room.status _ (Or.inr (Or.inl rfl))
        rw [findRoom_congr _ _ hw.1 rid, hup.1, hw.2.2, hD2res]
      · have hw := pipeline_tail_room (updateRoomStatus db1 (some rid)) o t rid
          room.status _ (Or.inl rfl)
        rw [findRoom_congr _ _ hw.1 rid, hup.1, hw.2.2, hD2res]
  · split
    · split
      · have hw := pipeline_tail_room (updateRoomStatus db1 (some rid)) o t rid
          room.status _ (Or.inr (Or.inr (Or.inr rfl)))
        rw [hw.2.1, hup.2, hw.2.2, hD2res, hw1]
      · have hw := pipeline_tail_room (updateRoomStatus db1 (some rid)) o t rid
          room.status _ (Or.inr (Or.inr (Or.inl rfl)))
        rw [hw.2.1, hup.2, hw.2.2, hD2res, hw1]
    · split
      · have hw := pipeline_tail_room (updateRoomStatus db1 (some rid)) o t rid
          room.status _ (Or.inr (Or.inl rfl))
        rw [hw.2.1, hup.2, hw.2.2, hD2res, hw1]
      · have hw := pipeline_tail_room (updateRoomStatus db1 (some rid)) o t rid
          room.status _ (Or.inl rfl)
        rw [hw.2.1, hup.2, hw.2.2, hD2res, hw1]

/-- After a delete, the captured room carries the status derived from the
remaining reservations, written only if it differs. -/
theorem delete_room (self : Reservation) (db : DB) (t : Int) (rid : Nat) (room : Room)
    (hroom : self.roomId = some rid) (hfind : db.findRoom rid = some room) :
    (self.delete db t).findRoom rid =
      some { room with status :=
        computeRoomStatus ((self.delete db t)).reservations rid room.status } ∧
    (self.delete db t).roomWrites = db.roomWrites +
      (if computeRoomStatus ((self.delete db t)).reservations rid room.status
          = room.status then 0 else 1) := by
  unfold Reservation.delete
  dsimp only
  rw [hroom]
  split
  · split
    · exact updateRoomStatus_room_spec _ db rid room
        ((processRefund_parts db self t).1) ((processRefund_parts db self t).2.2.1) hfind
    · exact updateRoomStatus_room_spec _ db rid room
        ((processRefund_parts db self t).1) ((processRefund_parts db self t).2.2.1) hfind
  · split
    · exact updateRoomStatus_room_spec _ db rid room rfl rfl hfind
    · exact updateRoomStatus_room_spec _ db rid room rfl rfl hfind

/-- C7: after a reservation is persisted (successful save) or deleted, the
affected room's status equals the derived value — `Occupied` if some
reservation of the room is `CheckedIn`, else `Booked` if some is `Booked`, else
`Available` unless the room was in `Maintenance` (then it stays so) — and the
room row is written exactly when the derived status differs from the current
one. -/
theorem C7_room_sync (self : Reservation) (db : DB) (today : Int) (rid : Nat)
    (room : Room) (hsucc : (self.save db today).errors = [])
    (hroom : self.roomId = some rid) (hfind : db.findRoom rid = some room) :
    ((self.save db today).db.findRoom rid =
      some { room with status :=
        computeRoomStatus ((self.save db today).db).reservations rid room.status } ∧
     (self.save db today).db.roomWrites = db.roomWrites +
       (if computeRoomStatus ((self.save db today).db).reservations rid room.status
           = room.status then 0 else 1)) ∧
    (∀ (s2 : Reservation) (db2 : DB) (t2 : Int) (rid2 : Nat) (room2 : Room),
      s2.roomId = some rid2 → db2.findRoom rid2 = some room2 →
        (s2.delete db2 t2).findRoom rid2 =
          some { room2 with status :=
            computeRoomStatus (s2.delete db2 t2).reservations rid2 room2.status } ∧
        (s2.delete db2 t2).roomWrites = db2.roomWrites +
          (if computeRoomStatus (s2.delete db2 t2).reservations rid2 room2.status
              = room2.status then 0 else 1)) := by
  rcases save_success self db today hsucc with ⟨_, heq⟩
  have hcroom : ((self.full_clean db).1).roomId = some rid := hroom
  refine ⟨⟨?_, ?_⟩, ?_⟩
  · rw [heq]
    exact (savePersist_room _ db today rid room hcroom hfind).1
  · rw [heq]
    exact (savePersist_room _ db today rid room hcroom hfind).2
  · intro s2 db2 t2 rid2 room2 h1 h2
    exact delete_room s2 db2 t2 rid2 room2 h1 h2

def exC7room : Room :=
  { id := 1, room_number := "101", price := 100, capacity := 2,
    status := RoomStatus.Available }

def exC7res : Reservation :=
  { pk := none, customerId := 1, roomId := some 1, check_in_date := some 10,
    check_out_date := some 12, number_of_guests := 2, status := ResStatus.Booked,
    paid_amount := 0, refund_amount := 0, income_recorded := false,
    refund_recorded := false }

def exC7db : DB :=
  { reservations := [], rooms := [exC7room], customers := [{ id := 1, name := "C1" }],
    incomes := [], expenses := [], roomWrites := 0 }

/-- Witness for C7: creating a booking recomputes room 101 from `Available` to
`Booked`, with exactly one room write. -/
theorem C7_room_sync_witness :
    (exC7res.save exC7db 5).db.findRoom 1 =
      some { exC7room with status := (computeRoomStatus
        ((exC7res.save exC7db 5).db).reservations 1 exC7room.status) } ∧
    (exC7res.save exC7db 5).db.roomWrites = exC7db.roomWrites +
      (if computeRoomStatus ((exC7res.save exC7db 5).db).reservations 1
          exC7room.status = exC7room.status then 0 else 1) :=
  (C7_room_sync exC7res exC7db 5 1 exC7room (by decide) (by decide) (by decide)).1

/-- Ledger and row effects of `Reservation.delete`: the row is removed, income
entries are never deleted (length preserved), a `CheckedOut` delete never
refunds and only annotates the matching income entry with the deleted marker,
and a `Refunded` delete with an unprocessed positive refund appends exactly the
refund expense. -/
theorem delete_ledger (self : Reservation) (db : DB) (t : Int) (p : Nat)
    (hpk : self.pk = some p) :
    (self.delete db t).reservations =
      db.reservations.filter (fun r => !(r.pk == some p)) ∧
    (self.delete db t).incomes.length = db.incomes.length ∧
    (self.status = ResStatus.CheckedOut →
      (self.delete db t).expenses = db.expenses ∧
      (self.income_recorded = true →
        (self.delete db t).incomes =
          annotateFirst db.incomes (idPat self) " | [预订已删除]") ∧
      (self.income_recorded = false → (self.delete db t).incomes = db.incomes)) ∧
    (self.status = ResStatus.Refunded → self.refund_recorded = false →
      0 < self.paid_amount →
      (self.delete db t).expenses = db.expenses ++ [refundExpenseFor db self t]) := by
  unfold Reservation.delete
  dsimp only
  have hobj := processRefund_obj_pres db self t
  refine ⟨?_, ?_, ?_, ?_⟩
  · rw [(updateRoomStatus_tables _ _).1]
    split
    · split <;>
      · dsimp only
        rw [show (processRefund db self t).2.pk = some p from by rw [hobj.1, hpk]]
        rcases processRefund_reservations db self t with h | h
        · rw [h]
        · rw [h]
          refine filter_out_map db.reservations (some p) _ (fun r => ?_) (fun r hr => ?_)
          · dsimp only
            by_cases hx : (r.pk == self.pk) = true
            · rw [if_pos hx]
            · rw [if_neg hx]
          · dsimp only
            rw [if_neg (by rw [hpk]; rw [hr]; exact fun hc => absurd hc (by simp))]
    · split <;>
      · dsimp only
        rw [show self.pk = some p from hpk]
  · rw [(updateRoomStatus_tables _ _).2.2.1]
    split
    · split
      · dsimp only
        rw [annotateFirst_length, (processRefund_parts db self t).2.2.2.1]
      · dsimp only
        rw [(processRefund_parts db self t).2.2.2.1]
    · split
      · dsimp only
        rw [annotateFirst_length]
      · dsimp only
  · intro hco
    rw [if_neg (show ¬(self.paid_amount > 0 ∧ self.refund_recorded = false ∧
        self.status = ResStatus.Refunded) from
      fun hcond => by rw [hco] at hcond; exact absurd hcond.2.2 (by decide))]
    dsimp only
    refine ⟨?_, ?_, ?_⟩
    · rw [(updateRoomStatus_tables _ _).2.2.2]
      split
      · dsimp only
      · dsimp only
    · intro hi
      rw [(updateRoomStatus_tables _ _).2.2.1, if_pos hi]
    · intro hi
      rw [(updateRoomStatus_tables _ _).2.2.1,
        if_neg (by rw [hi]; exact fun hc => absurd hc (by simp))]
  · intro hr hrec hpaid
    rw [if_pos (⟨hpaid, hrec, hr⟩ : self.paid_amount > 0 ∧
      self.refund_recorded = false ∧ self.status = ResStatus.Refunded)]
    rw [(updateRoomStatus_tables _ _).2.2.2]
    split
    · dsimp only
      rw [(processRefund_expenses db self t).2 hrec hpaid]
      rfl
    · dsimp only
      rw [(processRefund_expenses db self t).2 hrec hpaid]
      rfl

/-- C9: deleting a reservation (permitted only from `CheckedOut` or `Refunded`)
removes exactly its row and performs: (a) refund processing only for a
`Refunded` reservation with a positive unprocessed refund — a `CheckedOut`
reservation is never refunded on delete; (b) when `income_recorded` is set,
appending the deleted marker to the first matching income entry's description,
never deleting a ledger entry (the income count is always preserved); (c)
recomputing the captured room's status by the §4.4 rule over the remaining
reservations, writing the room row only when the status changed. -/
theorem C9_delete_effects (self : Reservation) (db : DB) (today : Int) (p : Nat)
    (rid : Nat) (room : Room)
    (hperm : self.status = ResStatus.CheckedOut ∨ self.status = ResStatus.Refunded)
    (hpk : self.pk = some p) (hroom : self.roomId = some rid)
    (hfind : db.findRoom rid = some room) :
    (self.delete db today).reservations =
      db.reservations.filter (fun r => !(r.pk == some p)) ∧
    (self.delete db today).incomes.length = db.incomes.length ∧
    (self.status = ResStatus.CheckedOut →
      (self.delete db today).expenses = db.expenses ∧
      (self.income_recorded = true →
        (self.delete db today).incomes =
          annotateFirst db.incomes (idPat self) " | [预订已删除]") ∧
      (self.income_recorded = false → (self.delete db today).incomes = db.incomes)) ∧
    (self.status = ResStatus.Refunded → self.refund_recorded = false →
      0 < self.paid_amount →
      (self.delete db today).expenses =
        db.expenses ++ [refundExpenseFor db self today]) ∧
    (self.delete db today).findRoom rid =
      some { room with status := (computeRoomStatus
        (self.delete db today).reservations rid room.status) } ∧
    (self.delete db today).roomWrites = db.roomWrites +
      (if computeRoomStatus (self.delete db today).reservations rid room.status
          = room.status then 0 else 1) := by
  have hl := delete_ledger self db today p hpk
  have hr := delete_room self db today rid room hroom hfind
  exact ⟨hl.1, hl.2.1, hl.2.2.1, hl.2.2.2, hr.1, hr.2⟩

def exC9room : Room :=
  { id := 1, room_number := "101", price := 100, capacity := 2,
    status := RoomStatus.Occupied }

def exC9res : Reservation :=
  { pk := some 1, customerId := 1, roomId := some 1, check_in_date := some 10,
    check_out_date := some 12, number_of_guests := 2, status := ResStatus.CheckedOut,
    paid_amount := 200, refund_amount := 0, income_recorded := true,
    refund_recorded := false }

def exC9db : DB :=
  { reservations := [exC9res],
    rooms := [exC9room],
    customers := [{ id := 1, name := "C1" }],
    incomes := [{ date := 5, amount := 200, source := "Room",
                  description := "预订号:1 | 客户:C1 | 房间:101 | 10 至 12 (共2天) | 人数:2" }],
    expenses := [], roomWrites := 0 }

/-- Witness for C9: deleting a checked-out reservation removes its row, keeps
the income count, creates no expense, and annotates the income entry. -/
theorem C9_delete_effects_witness :
    (exC9res.delete exC9db 6).reservations =
      exC9db.reservations.filter (fun r => !(r.pk == some 1)) ∧
    (exC9res.delete exC9db 6).incomes.length = exC9db.incomes.length ∧
    (exC9res.delete exC9db 6).expenses = exC9db.expenses := by
  have h := C9_delete_effects exC9res exC9db 6 1 1 exC9room (Or.inl (by decide))
    (by decide) (by decide) (by decide)
  exact ⟨h.1, h.2.1, (h.2.2.1 (by decide)).1⟩
